import Mathlib

/-!
androidaudioplayer: the player engine, embedded in Lean

A shallow embedding of the player engine of `danbrough/androidaudioplayer`:

* `lib/src/main/native/audioplayer.h`   (types, `SUCCESS`, `FAILURE`)
* `lib/src/main/native/player_thread.c` (state machine, command handlers, dispatcher loop)
* `library/jni/player/audioplayer.c`    (public operations)

Conventions of the embedding.

* C `int`, `int64_t`, `unsigned int` are `Int`, wrapped explicitly (`wrap32`, `wrap64`)
  where a conversion or an overflow can occur.
* C `double` is modelled by exact rationals (`ℚ`); a division by zero yields 0 there.
* A nullable pointer is an `Option` (or a `Bool` when only null-ness is read).
* A stream that `avformat_close_input` frees while `player->audio_st` still points to it is
  marked `freed`; a read through such a pointer sets `Machine.fault`.
* The file-static variables of `player_thread.c` are the fields of `Statics`.
* Every call into the listener or the external codec library that a property talks about is
  appended to `Machine.trace`.
* The outcomes of the external library calls are explicit arguments (`PrepareEnv`, ...).
-/

namespace AudioPlayer

/-! ## audioplayer.h -/

/-- The macro `SUCCESS` of `audioplayer.h`. -/
def SUCCESS : Int := 0

/-- The macro `FAILURE` of `audioplayer.h`. -/
def FAILURE : Int := -1

/-- The enumeration `audio_state_t` of `audioplayer.h`, in declaration order. -/
inductive audio_state_t where
  | STATE_IDLE
  | STATE_INITIALIZED
  | STATE_PREPARING
  | STATE_PREPARED
  | STATE_STARTED
  | STATE_PAUSED
  | STATE_COMPLETED
  | STATE_STOPPED
  | STATE_ERROR
  | STATE_END
  deriving DecidableEq, Repr, Inhabited

open audio_state_t

/-- The integer value of a state (C enumerators count from 0). -/
def audio_state_t.toInt : audio_state_t → Int
  | STATE_IDLE => 0
  | STATE_INITIALIZED => 1
  | STATE_PREPARING => 2
  | STATE_PREPARED => 3
  | STATE_STARTED => 4
  | STATE_PAUSED => 5
  | STATE_COMPLETED => 6
  | STATE_STOPPED => 7
  | STATE_ERROR => 8
  | STATE_END => 9

/-- All ten playback states. -/
def audio_state_t.all : List audio_state_t :=
  [STATE_IDLE, STATE_INITIALIZED, STATE_PREPARING, STATE_PREPARED, STATE_STARTED,
   STATE_PAUSED, STATE_COMPLETED, STATE_STOPPED, STATE_ERROR, STATE_END]

/-- The enumeration `audio_event_t` (`EVENT_THREAD_START = 1`, then consecutive). -/
inductive audio_event_t where
  | EVENT_THREAD_START
  | EVENT_STATE_CHANGE
  | EVENT_SEEK_COMPLETE
  deriving DecidableEq, Repr, Inhabited

open audio_event_t

/-- The enumeration `audio_cmd_t`, in declaration order. -/
inductive audio_cmd_t where
  | CMD_SET_DATASOURCE
  | CMD_PREPARE
  | CMD_START
  | CMD_PAUSE
  | CMD_STOP
  | CMD_SEEK
  | CMD_RESET
  | CMD_EXIT
  deriving DecidableEq, Repr, Inhabited

open audio_cmd_t

/-! ## Machine integers -/

/-- Reduction of an integer to the signed 32-bit range (conversion to `int32_t` / `int`). -/
def wrap32 (x : Int) : Int := (x + 2 ^ 31) % 2 ^ 32 - 2 ^ 31

/-- Reduction of an integer to the signed 64-bit range (`int64_t` arithmetic). -/
def wrap64 (x : Int) : Int := (x + 2 ^ 63) % 2 ^ 64 - 2 ^ 63

/-- Reduction of an integer to the unsigned 32-bit range (`unsigned int` arithmetic). -/
def wrapU32 (x : Int) : Int := x % 2 ^ 32

/-- The limit `INT64_MIN` of `stdint.h`. -/
def INT64_MIN : Int := -(2 ^ 63)

/-- The limit `INT64_MAX` of `stdint.h`. -/
def INT64_MAX : Int := 2 ^ 63 - 1

/-- Conversion of a `double` to an integer type: the fractional part is discarded
(truncation toward zero). -/
def truncate (x : ℚ) : Int := if 0 ≤ x then ⌊x⌋ else ⌈x⌉

/-! ## Constants of the external codec library headers

The libav headers are not part of the repository; these are the values of the macros
the sources use. -/

/-- The libav name `AV_NOPTS_VALUE`, the "no timestamp" marker (`INT64_C(0x8000000000000000)`). -/
def AV_NOPTS_VALUE : Int := INT64_MIN

/-- The libav name `AV_TIME_BASE`, time-base units per second. -/
def AV_TIME_BASE : Int := 1000000

/-- The libav name `AVSEEK_FLAG_FRAME`, seeking based on frame number. -/
def AVSEEK_FLAG_FRAME : Int := 8

/-- The libav name `AV_SAMPLE_FMT_S16` of `enum AVSampleFormat`. -/
def AV_SAMPLE_FMT_S16 : Int := 1

/-- The libav name `AV_CH_LAYOUT_MONO`. -/
def AV_CH_LAYOUT_MONO : Int := 4

/-- The libav name `AV_CH_LAYOUT_STEREO`. -/
def AV_CH_LAYOUT_STEREO : Int := 3

/-- The libav error code `AVERROR(ENOMEM)`. -/
def AVERROR_ENOMEM : Int := -12

/-- The libav name `AVERROR_INVALIDDATA`. -/
def AVERROR_INVALIDDATA : Int := -1094995529

/-- The libav name `AVERROR_UNKNOWN`. -/
def AVERROR_UNKNOWN : Int := -1313558101

/-- The libav name `AVERROR_EOF`. -/
def AVERROR_EOF : Int := -541478725

/-- The libav name `av_get_bytes_per_sample`, on the sample formats of `enum AVSampleFormat`
(U8, S16, S32, FLT, DBL and their planar variants); 0 for anything else. -/
def av_get_bytes_per_sample (fmt : Int) : Int :=
  if fmt = 0 ∨ fmt = 5 then 1
  else if fmt = 1 ∨ fmt = 6 then 2
  else if fmt = 2 ∨ fmt = 3 ∨ fmt = 7 ∨ fmt = 8 then 4
  else if fmt = 4 ∨ fmt = 9 then 8
  else 0

/-- The libav name `av_get_channel_layout_nb_channels`: the number of bits set in the
layout mask. -/
def av_get_channel_layout_nb_channels (layout : Int) : Int :=
  (((List.range 64).filter (fun i => layout.toNat.testBit i)).length : Nat)

/-! ## Data model -/

/-- What the engine reads of an `AVFormatContext`. `opened` is false for the bare context
that `avformat_alloc_context` returns and true for one filled by `avformat_open_input`. -/
structure AVFormatContext where
  opened : Bool
  duration : Int
  nb_streams : Int
  deriving DecidableEq, Inhabited

/-- What the engine reads of the selected `AVStream` and its codec context. -/
structure AVStream where
  /-- The value `av_q2d(time_base)`. -/
  time_base : ℚ
  /-- The field `codec->channels`. -/
  channels : Int
  /-- Whether `codec->codec->capabilities & CODEC_CAP_DELAY` is non-zero. -/
  cap_delay : Bool
  /-- The field `event_flags`, only logged. -/
  event_flags : Int
  /-- Whether the stream has been freed (by `avformat_close_input` on the context it belongs
  to) while a pointer to it is still held. -/
  freed : Bool := false
  deriving DecidableEq, Inhabited

/-- The struct `_player_callbacks_t`: which callbacks are non-null. -/
structure player_callbacks_t where
  on_event : Bool
  on_play : Bool
  on_prepare : Bool
  deriving DecidableEq, Inhabited

/-- The struct `player_t` of `audioplayer.h` (mutex, thread id, pipe descriptors and the
unused sample arrays left out). -/
structure player_t where
  looping : Int
  abort_call : Int
  state : audio_state_t
  seek_req : Int
  seek_flags : Int
  seek_pos : Int
  seek_rel : Int
  ic : Option AVFormatContext
  audio_stream : Int
  audio_clock : ℚ
  audio_st : Option AVStream
  audio_buf_size : Int
  audio_buf_index : Int
  sdl_sample_fmt : Int
  sdl_channel_layout : Int
  sdl_channels : Int
  sdl_sample_rate : Int
  resample_sample_fmt : Int
  resample_channel_layout : Int
  resample_sample_rate : Int
  url : List Char
  callbacks : player_callbacks_t
  deriving DecidableEq, Inhabited

/-- The packet `pkt` (an `AVPacket`): the fields the engine reads. -/
structure AVPacket where
  /-- Whether `data` is non-null. -/
  data : Bool
  size : Int
  pts : Int
  stream_index : Int
  deriving DecidableEq, Inhabited

/-- The file-static variables of `player_thread.c`. -/
structure Statics where
  /-- The entry `st_index[AVMEDIA_TYPE_AUDIO]`. -/
  st_index_audio : Int
  /-- The entry `st_index[AVMEDIA_TYPE_VIDEO]`. -/
  st_index_video : Int
  epoll_timeout : Int
  eof : Int
  /-- Whether `avr` is non-null. -/
  avr : Bool
  /-- Whether `frame` is non-null. -/
  frame : Bool
  pkt : AVPacket
  /-- Whether `audio_buf` is non-null. -/
  audio_buf : Bool
  deriving DecidableEq, Inhabited

/-- One observable call out of the engine: a listener callback or a library call. -/
inductive Call where
  | on_event (event : audio_event_t) (arg1 arg2 : Int)
  | on_play (len : Int)
  | on_prepare (sampleFormat sampleRate channelFormat : Int)
  | avformat_seek_file (min_ts ts max_ts flags : Int)
  | avcodec_decode_audio4
  | av_read_pause
  | av_read_play
  deriving DecidableEq, Inhabited

/-- The whole engine: the player, the statics of `player_thread.c`, the bytes waiting in
the command pipe (as commands, oldest first) and the calls made so far. -/
structure Machine where
  player : player_t
  statics : Statics
  pipe : List audio_cmd_t
  trace : List Call
  /-- Whether the engine has read through a pointer to a freed stream (a use after free):
  from then on the real program has no defined behaviour and the model is only one of its
  possible continuations. -/
  fault : Bool := false
  deriving DecidableEq, Inhabited

/-- Whether `player->audio_st` is non-null and points to a freed stream, so that evaluating
`player->audio_st->codec` is a use after free. -/
def dangling_audio_st (player : player_t) : Bool :=
  match player.audio_st with
  | some st => st.freed
  | none => false

/-- The value of `player->audio_st` after `if (player->ic) avformat_close_input(&player->ic)`
where `ic` is the value of `player->ic` before: closing a context frees its streams, and
the pointer `player->audio_st`, which is not cleared, then points to a freed stream. -/
def freed_stream (ic : Option AVFormatContext) (audio_st : Option AVStream) :
    Option AVStream :=
  match ic with
  | some _ => audio_st.map fun st => { st with freed := true }
  | none => audio_st

/-! ## player_thread.c: the state machine -/

/-- The condition of the `if` in `change_state`: the request is accepted. -/
def change_state_ok (old_state state : audio_state_t) : Bool :=
  (state == STATE_IDLE || state == STATE_ERROR || state == STATE_END)
  || (old_state == STATE_IDLE && state == STATE_INITIALIZED)
  || (old_state == STATE_INITIALIZED && (state == STATE_PREPARING || state == STATE_PREPARED))
  || (old_state == STATE_PREPARING && state == STATE_PREPARED)
  || (old_state == STATE_PREPARED && (state == STATE_STOPPED || state == STATE_STARTED))
  || (old_state == STATE_STARTED
        && (state == STATE_PAUSED || state == STATE_STOPPED || state == STATE_COMPLETED))
  || (old_state == STATE_PAUSED && (state == STATE_STOPPED || state == STATE_STARTED))
  || (old_state == STATE_COMPLETED && (state == STATE_STOPPED || state == STATE_STARTED))
  || (old_state == STATE_STOPPED && (state == STATE_PREPARING || state == STATE_PREPARED))

/-- The function `change_state` of `player_thread.c`. -/
def change_state (m : Machine) (state : audio_state_t) : Int × Machine :=
  let old_state := m.player.state
  let ret : Int := if change_state_ok old_state state then SUCCESS else -1
  if ret = SUCCESS then
    let m1 := { m with player := { m.player with state := state } }
    if m1.player.callbacks.on_event then
      (ret, { m1 with trace := m1.trace ++
                [Call.on_event EVENT_STATE_CHANGE old_state.toInt state.toInt] })
    else (ret, m1)
  else (ret, m)

/-! ## player_thread.c: preparing a session -/

/-- The outcomes of the external calls made while one `PREPARE` command is processed. -/
structure PrepareEnv where
  /-- The return value of `avformat_open_input`. -/
  open_input : Int
  /-- The duration of the opened session, in `AV_TIME_BASE` units. -/
  duration : Int
  /-- The number of streams of the opened session. -/
  nb_streams : Int
  /-- The return value of `avformat_find_stream_info`. -/
  find_stream_info : Int
  /-- The return value of `av_find_best_stream`. -/
  best_stream : Int
  /-- Whether `avcodec_find_decoder` finds a decoder. -/
  decoder : Bool
  /-- The return value of `avcodec_open2`. -/
  avcodec_open2 : Int
  /-- Whether the codec context has `codec_type == AVMEDIA_TYPE_AUDIO`. -/
  codec_type_audio : Bool
  /-- The field `avctx->sample_rate`. -/
  sample_rate : Int
  /-- The field `avctx->channel_layout`. -/
  channel_layout : Int
  /-- The value of `av_get_default_channel_layout(avctx->channels)`. -/
  default_channel_layout : Int
  /-- The return value of the listener callback `on_prepare`. -/
  on_prepare : Int
  /-- The selected stream `ic->streams[stream_index]`. -/
  stream : AVStream
  deriving DecidableEq, Inhabited

/-- The all-zero packet left by `memset(&pkt, 0, sizeof(pkt))`. -/
def AVPacket.zero : AVPacket := { data := false, size := 0, pts := 0, stream_index := 0 }

/-- The function `stream_component_open` of `player_thread.c`; `ic` is its local
`AVFormatContext *ic = player->ic`. -/
def stream_component_open (env : PrepareEnv) (ic : AVFormatContext) (m : Machine)
    (stream_index : Int) : Int × Machine :=
  if stream_index < 0 ∨ stream_index ≥ ic.nb_streams then (-1, m)
  else if !env.decoder then (0, m)
  else if env.avcodec_open2 < 0 then (env.avcodec_open2, m)
  else if m.player.abort_call ≠ 0 then (FAILURE, m)
  else
    let ret := env.avcodec_open2
    let tail (m : Machine) : Int × Machine :=
      (ret, { m with
        player := { m.player with
          audio_stream := stream_index
          audio_st := some { env.stream with freed := false }
          audio_buf_size := 0
          audio_buf_index := 0 }
        statics := { m.statics with pkt := AVPacket.zero } })
    if env.codec_type_audio then
      let m1 := { m with player := { m.player with sdl_sample_rate := env.sample_rate } }
      let channel_layout :=
        if env.channel_layout = 0 then env.default_channel_layout else env.channel_layout
      if channel_layout = 0 then (AVERROR_INVALIDDATA, m1)
      else
        let sdl_channel_layout :=
          if env.stream.channels = 1 then AV_CH_LAYOUT_MONO else AV_CH_LAYOUT_STEREO
        let sdl_channels := av_get_channel_layout_nb_channels sdl_channel_layout
        let m2 := { m1 with
          player := { m1.player with
            sdl_channel_layout := sdl_channel_layout
            sdl_channels := sdl_channels } }
        let sampleRate := m2.player.sdl_sample_rate
        let channelFormat := m2.player.sdl_channels
        let m3 := { m2 with
          trace := m2.trace ++ [Call.on_prepare AV_SAMPLE_FMT_S16 sampleRate channelFormat] }
        if env.on_prepare < 0 then (AVERROR_UNKNOWN, m3)
        else
          tail { m3 with
            player := { m3.player with
              sdl_sample_fmt := AV_SAMPLE_FMT_S16
              resample_sample_fmt := AV_SAMPLE_FMT_S16
              resample_channel_layout := channel_layout
              resample_sample_rate := m3.player.sdl_sample_rate } }
    else tail m

/-- The function `cmd_prepare` of `player_thread.c`. -/
def cmd_prepare (env : PrepareEnv) (m : Machine) : Int × Machine :=
  let (r, m) := change_state m STATE_PREPARING
  if r ≠ SUCCESS then (FAILURE, m)
  else
    -- `if (player->ic) avformat_close_input(&player->ic);` leaves `player->ic == NULL` and
    -- frees the streams of the closed context; `player->audio_st` is not cleared
    let m := { m with player := { m.player with
      ic := none
      audio_st := freed_stream m.player.ic m.player.audio_st } }
    -- `avformat_open_input`: on failure `player->ic` stays null
    let ret := env.open_input
    if ret < 0 then (FAILURE, m)
    else
      let ic : AVFormatContext :=
        { opened := true, duration := env.duration, nb_streams := env.nb_streams }
      let m := { m with player := { m.player with ic := some ic } }
      let ret := env.find_stream_info
      if ret < 0 then (FAILURE, m)
      else
        let m := { m with player := { m.player with audio_stream := -1 } }
        let m := { m with statics := { m.statics with st_index_audio := env.best_stream } }
        let m :=
          if m.statics.st_index_audio ≥ 0 then
            (stream_component_open env ic m m.statics.st_index_audio).2
          else m
        if m.player.audio_stream < 0 then (FAILURE, m)
        else change_state m STATE_PREPARED

/-! ## player_thread.c: the other command handlers -/

/-- The function `cmd_reset` of `player_thread.c`. -/
def cmd_reset (m : Machine) : Int × Machine :=
  if m.player.state = STATE_IDLE then (SUCCESS, m)
  else
    let m := if m.player.state ≠ STATE_END then (change_state m STATE_IDLE).2 else m
    -- `if (player->audio_st && player->audio_st->codec) avcodec_close(...)` reads the stream
    -- behind `player->audio_st`
    let m := { m with fault := m.fault || dangling_audio_st m.player }
    -- `avresample_free`, `av_frame_free`, `avformat_close_input`
    let m := { m with statics := { m.statics with avr := false, frame := false } }
    let m := { m with player := { m.player with ic := none } }
    let m := { m with player := { m.player with audio_stream := -1, audio_st := none } }
    let m := { m with statics := { m.statics with epoll_timeout := -1 } }
    let m := { m with player := { m.player with abort_call := 0 } }
    (SUCCESS, m)

/-- The function `cmd_pause` of `player_thread.c`. -/
def cmd_pause (m : Machine) : Int × Machine :=
  if m.player.state = STATE_STARTED then
    let m := { m with trace := m.trace ++ [Call.av_read_pause] }
    let m := { m with statics := { m.statics with epoll_timeout := -1 } }
    change_state m STATE_PAUSED
  else (FAILURE, m)

/-- The function `cmd_start` of `player_thread.c`. -/
def cmd_start (env : PrepareEnv) (m : Machine) : Int × Machine :=
  if m.player.state = STATE_STARTED then (SUCCESS, m)
  else if m.player.state = STATE_STOPPED then
    cmd_prepare env (cmd_reset m).2
  else
    let m :=
      if m.player.state = STATE_PAUSED then { m with trace := m.trace ++ [Call.av_read_play] }
      else m
    let (ret, m) := change_state m STATE_STARTED
    if ret = SUCCESS then
      (ret, { m with statics := { m.statics with epoll_timeout := 0 } })
    else (ret, m)

/-- The function `cmd_stop` of `player_thread.c`. -/
def cmd_stop (m : Machine) : Int × Machine :=
  let m := { m with statics := { m.statics with epoll_timeout := -1 } }
  change_state m STATE_STOPPED

/-- The function `cmd_seek` of `player_thread.c`; `seek_ret` is the return value of
`avformat_seek_file`. -/
def cmd_seek (seek_ret : Int) (m : Machine) : Int × Machine :=
  let seek_target := m.player.seek_pos
  let seek_min :=
    if m.player.seek_rel > 0 then wrap64 (wrap64 (seek_target - m.player.seek_rel) + 2)
    else INT64_MIN
  let seek_max :=
    if m.player.seek_rel < 0 then wrap64 (wrap64 (seek_target - m.player.seek_rel) - 2)
    else INT64_MAX
  let m := { m with trace := m.trace ++
    [Call.avformat_seek_file seek_min seek_target seek_max m.player.seek_flags] }
  let ret := seek_ret
  let m := { m with player := { m.player with seek_req := 0 } }
  if m.player.abort_call ≠ 0 then (-1, m)
  else if ret < 0 then (ret, m)
  else if m.player.callbacks.on_event then
    (ret, { m with trace := m.trace ++ [Call.on_event EVENT_SEEK_COMPLETE 0 0] })
  else (ret, m)

/-- The function `cmd_set_datasource` of `player_thread.c`. -/
def cmd_set_datasource (m : Machine) : Int × Machine :=
  if m.player.state ≠ STATE_IDLE then (FAILURE, m)
  else change_state m STATE_INITIALIZED

/-! ## audioplayer.c: the public operations -/

/-- The function `ap_send_cmd` of `audioplayer.c`: a `write` of `sizeof(cmd)` bytes on the
non-blocking pipe; `ok` says whether the write succeeds. -/
def ap_send_cmd (ok : Bool) (m : Machine) (cmd : audio_cmd_t) : Int × Machine :=
  if ok then (4, { m with pipe := m.pipe ++ [cmd] }) else (-1, m)

/-- The function `audio_write_get_buf_size` of `audioplayer.c`: an `unsigned int`
difference returned as `int`. -/
def audio_write_get_buf_size (player : player_t) : Int :=
  wrap32 (wrapU32 (player.audio_buf_size - player.audio_buf_index))

/-- The function `ap_get_audio_clock` of `audioplayer.c`. -/
def ap_get_audio_clock (player : player_t) : ℚ :=
  let pts := player.audio_clock
  let hw_buf_size := audio_write_get_buf_size player
  let bytes_per_sec : Int :=
    if player.audio_st.isSome then
      wrap32 (wrap32 (player.sdl_sample_rate * player.sdl_channels)
        * av_get_bytes_per_sample player.sdl_sample_fmt)
    else 0
  if bytes_per_sec ≠ 0 then pts - (hw_buf_size : ℚ) / (bytes_per_sec : ℚ) else pts

/-- The function `stream_seek` of `audioplayer.c`. -/
def stream_seek (player : player_t) (pos rel : Int) : player_t :=
  if player.seek_req = 0 then
    { player with
      seek_pos := pos
      seek_rel := rel
      seek_flags := AVSEEK_FLAG_FRAME
      seek_req := 1 }
  else player

/-- The function `ap_seek` of `audioplayer.c`; `relative` is its `int relative`. -/
def ap_seek (player : player_t) (incr : Int) (relative : Int) : player_t :=
  if player.audio_st.isNone then player
  else
    let pos : Int :=
      if relative ≠ 0 then
        wrap64 (wrap64 (truncate (ap_get_audio_clock player * (AV_TIME_BASE : ℚ))) + incr)
      else incr
    stream_seek player pos incr

/-- The function `ap_set_datasource` of `audioplayer.c`; `av_strlcpy` keeps at most
`sizeof(player->url) - 1 = 1023` characters. -/
def ap_set_datasource (ok : Bool) (m : Machine) (url : List Char) : Int × Machine :=
  if m.player.state = STATE_IDLE then
    let m := { m with player := { m.player with url := url.take 1023 } }
    ap_send_cmd ok m CMD_SET_DATASOURCE
  else (FAILURE, m)

/-- The function `ap_get_duration` of `audioplayer.c`. It takes the player by pointer and
writes nothing through it; the model returns the player along with the result. -/
def ap_get_duration (player : player_t) : Int × player_t :=
  if player.state = STATE_PREPARED ∨ player.state = STATE_STARTED
      ∨ player.state = STATE_PAUSED ∨ player.state = STATE_STOPPED
      ∨ player.state = STATE_COMPLETED then
    match player.ic with
    | some ic =>
      if ic.duration > 0 ∧ ic.duration ≠ AV_NOPTS_VALUE then
        (wrap32 (Int.tdiv ic.duration 1000), player)
      else (-1, player)
    | none => (-1, player)
  else (-1, player)

/-- The function `ap_get_position` of `audioplayer.c`. -/
def ap_get_position (player : player_t) : Int :=
  wrap32 (truncate (ap_get_audio_clock player * 1000))

/-- The function `ap_set_looping` of `audioplayer.c`. -/
def ap_set_looping (player : player_t) (looping : Int) : player_t :=
  { player with looping := looping }

/-- The state of the file-static variables of `player_thread.c` at program start. -/
def Statics.initial : Statics :=
  { st_index_audio := 0, st_index_video := 0, epoll_timeout := -1, eof := 0,
    avr := false, frame := false, pkt := AVPacket.zero, audio_buf := false }

/-- The function `ap_create` of `audioplayer.c` (on its success path): the player is zeroed
by `memset` and given the callbacks; the pipe is empty. -/
def ap_create (callbacks : player_callbacks_t) : Machine :=
  { player :=
      { looping := 0, abort_call := 0, state := STATE_IDLE, seek_req := 0, seek_flags := 0,
        seek_pos := 0, seek_rel := 0, ic := none, audio_stream := 0, audio_clock := 0,
        audio_st := none, audio_buf_size := 0, audio_buf_index := 0, sdl_sample_fmt := 0,
        sdl_channel_layout := 0, sdl_channels := 0, sdl_sample_rate := 0,
        resample_sample_fmt := 0, resample_channel_layout := 0, resample_sample_rate := 0,
        url := [], callbacks := callbacks }
    statics := Statics.initial
    pipe := []
    trace := [] }

/-! ## player_thread.c: the decode and resample pipeline -/

/-- The outcomes of the external calls made by one pass through the body of the `while`
loop of `audio_decode_frame`. -/
structure DecodeEnv where
  /-- Whether `av_frame_alloc` succeeds. -/
  frame_alloc : Bool
  /-- The return value of `avcodec_decode_audio4`. -/
  len1 : Int
  /-- The flag `got_frame` set by the decoder. -/
  got_frame : Int
  /-- The field `frame->format`. -/
  format : Int
  /-- The field `frame->channel_layout`. -/
  channel_layout : Int
  /-- The field `frame->sample_rate`. -/
  sample_rate : Int
  /-- The value of `av_samples_get_buffer_size` for the decoded frame. -/
  data_size : Int
  /-- Whether `avresample_alloc_context` succeeds. -/
  avr_alloc : Bool
  /-- The return value of `avresample_open`. -/
  avresample_open : Int
  /-- Whether `av_realloc` of the scratch buffer succeeds. -/
  realloc : Bool
  /-- The return value of `avresample_convert`. -/
  out_samples : Int
  deriving DecidableEq, Inhabited

/-- The value `av_q2d(player->audio_st->time_base)`. The engine dereferences `audio_st`
without a check; the model reads 0 through a null pointer. -/
def stream_time_base (player : player_t) : ℚ :=
  match player.audio_st with
  | some st => st.time_base
  | none => 0

/-- The block `if ((!avr && audio_resample) || resample_changed) { ... }` of
`audio_decode_frame`. The boolean is false when the block leaves the `while` loop by
`break`. -/
def audio_decode_frame_resampler (env : DecodeEnv) (m : Machine)
    (audio_resample resample_changed : Bool) : Bool × Machine :=
  if (!m.statics.avr && audio_resample) || resample_changed then
    let latch (m : Machine) : Bool × Machine :=
      (true, { m with
        player := { m.player with
          resample_sample_fmt := env.format
          resample_channel_layout := env.channel_layout
          resample_sample_rate := env.sample_rate } })
    let configure (m : Machine) : Bool × Machine :=
      if audio_resample then
        if env.avresample_open < 0 then (false, m) else latch m
      else latch m
    if m.statics.avr then configure m
    else if audio_resample then
      if !env.avr_alloc then (false, m)
      else configure { m with statics := { m.statics with avr := true } }
    else configure m
  else (true, m)

/-- The end of the body of the `while` loop of `audio_decode_frame`, from the comment
"if no pts, then compute it" on: the clock is advanced, the abort flag is checked, the
sink callback `on_play` is invoked and the byte count is returned. -/
def audio_decode_frame_play (m : Machine) (data_size : Int) : Option Int × Machine :=
  let n := wrap32 (m.player.sdl_channels * av_get_bytes_per_sample m.player.sdl_sample_fmt)
  let clock : ℚ := m.player.audio_clock
    + (data_size : ℚ) / ((wrap32 (n * m.player.sdl_sample_rate) : Int) : ℚ)
  let clock : ℚ :=
    if m.statics.pkt.pts ≠ AV_NOPTS_VALUE then
      stream_time_base m.player * (m.statics.pkt.pts : ℚ)
    else clock
  let m := { m with player := { m.player with audio_clock := clock } }
  if m.player.abort_call ≠ 0 then (some FAILURE, m)
  else (some data_size, { m with trace := m.trace ++ [Call.on_play data_size] })

/-- One pass through the body of `while (pkt.size > 0) { ... }` in `audio_decode_frame`.
Every path through the body ends in a `return` (result `some r`) or a `break` (result
`none`); no path reaches the end of the body, so the body is never repeated. -/
def audio_decode_frame_body (env : DecodeEnv) (m : Machine) : Option Int × Machine :=
  if !m.statics.frame && !env.frame_alloc then (some AVERROR_ENOMEM, m)
  else
    let m := { m with statics := { m.statics with frame := true } }
    if m.player.abort_call ≠ 0 then (some FAILURE, m)
    else
      let m := { m with trace := m.trace ++ [Call.avcodec_decode_audio4] }
      let len1 := env.len1
      -- `if (len1 < 0) pkt.size = 0;` then `pkt.data += len1; pkt.size -= len1;`
      let size : Int := if len1 < 0 then 0 else m.statics.pkt.size
      let m := { m with statics := { m.statics with
        pkt := { m.statics.pkt with size := wrap32 (size - len1) } } }
      if env.got_frame = 0 then (some 0, m)
      else
        let data_size := env.data_size
        let audio_resample : Bool :=
          decide (env.format ≠ m.player.sdl_sample_fmt
            ∨ env.channel_layout ≠ m.player.sdl_channel_layout
            ∨ env.sample_rate ≠ m.player.sdl_sample_rate)
        let resample_changed : Bool :=
          decide (env.format ≠ m.player.resample_sample_fmt
            ∨ env.channel_layout ≠ m.player.resample_channel_layout
            ∨ env.sample_rate ≠ m.player.resample_sample_rate)
        let r := audio_decode_frame_resampler env m audio_resample resample_changed
        if !r.1 then (none, r.2)
        else if audio_resample then
          let osize := av_get_bytes_per_sample r.2.player.sdl_sample_fmt
          if !env.realloc then (some AVERROR_ENOMEM, r.2)
          else
            let m := { r.2 with statics := { r.2.statics with audio_buf := true } }
            let out_samples := env.out_samples
            if out_samples < 0 then (none, m)
            else
              audio_decode_frame_play m
                (wrap32 (wrap32 (out_samples * osize) * m.player.sdl_channels))
        else audio_decode_frame_play r.2 data_size

/-- The function `audio_decode_frame` of `player_thread.c`. Each unit of `fuel` is one
turn of its `for (;;)` loop; `none` means the fuel ran out before a `return`. The turn
numbered `i` takes the outcomes of its external calls from `envs i`. -/
def audio_decode_frame : Nat → (Nat → DecodeEnv) → Machine → Option (Int × Machine)
  | 0, _, _ => none
  | fuel + 1, envs, m =>
    let r : Option Int × Machine :=
      if m.statics.pkt.size > 0 then audio_decode_frame_body (envs 0) m else (none, m)
    match r.1 with
    | some ret => some (ret, r.2)
    | none =>
      -- free the current packet, `memset(&pkt, 0, sizeof(pkt))`
      let m := { r.2 with statics := { r.2.statics with pkt := AVPacket.zero } }
      if m.player.state = STATE_PAUSED then some (-1, m)
      else
        let clock : ℚ :=
          if m.statics.pkt.pts ≠ AV_NOPTS_VALUE then
            stream_time_base m.player * (m.statics.pkt.pts : ℚ)
          else m.player.audio_clock
        let m := { m with player := { m.player with audio_clock := clock } }
        audio_decode_frame fuel (fun i => envs (i + 1)) m

/-! ## player_thread.c: the dispatcher -/

/-- The packet left by `av_init_packet(&pkt); pkt.data = NULL; pkt.size = 0;`. -/
def AVPacket.init (stream_index : Int) : AVPacket :=
  { data := false, size := 0, pts := AV_NOPTS_VALUE, stream_index := stream_index }

/-- The part of `player_thread` before its loop (on its success path): the statics and
the stream index are reset, `EVENT_THREAD_START` is fired and a bare format context is
allocated. -/
def player_thread_start (m : Machine) : Machine :=
  let m := { m with statics := { m.statics with st_index_audio := -1, st_index_video := -1 } }
  let m := { m with player := { m.player with audio_stream := -1 } }
  let m := { m with statics := { m.statics with pkt := AVPacket.init 0 } }
  let m :=
    if m.player.callbacks.on_event then
      { m with trace := m.trace ++ [Call.on_event EVENT_THREAD_START 0 0] }
    else m
  { m with player := { m.player with
      ic := some { opened := false, duration := AV_NOPTS_VALUE, nb_streams := 0 } } }

/-- The outcomes of the external calls made by one turn of the loop of `player_thread`. -/
structure IterEnv where
  /-- Whether `epoll_wait` fails (`nfds < 0`). -/
  epoll_fails : Bool
  /-- The outcomes for `cmd_prepare`. -/
  prepare : PrepareEnv
  /-- The return value of `avformat_seek_file` in `cmd_seek`. -/
  seek_ret : Int
  /-- The return value of `av_read_frame`. -/
  read_frame : Int
  /-- The packet `pkt` after `av_read_frame`. -/
  pkt : AVPacket
  /-- Whether `player->ic->pb && player->ic->pb->eof_reached`. -/
  pb_eof : Bool
  /-- The outcomes for `audio_decode_frame`. -/
  decode : Nat → DecodeEnv
  /-- The fuel for `audio_decode_frame`. -/
  fuel : Nat

/-- The `switch (cmd)` of `player_thread`; the boolean is the new value of `quit`. -/
def dispatch (env : IterEnv) (m : Machine) (cmd : audio_cmd_t) : Bool × Machine :=
  match cmd with
  | CMD_PREPARE =>
    (false, (cmd_prepare env.prepare { m with statics := { m.statics with eof := 0 } }).2)
  | CMD_START => (false, (cmd_start env.prepare m).2)
  | CMD_PAUSE => (false, (cmd_pause m).2)
  | CMD_STOP => (false, (cmd_stop m).2)
  | CMD_SEEK => (false, (cmd_seek env.seek_ret m).2)
  | CMD_RESET => (false, (cmd_reset m).2)
  | CMD_SET_DATASOURCE => (false, (cmd_set_datasource m).2)
  | CMD_EXIT => (true, m)

/-- The part of one turn of the loop of `player_thread` after the commands: reading a
packet and decoding it. `none` means `audio_decode_frame` does not return. -/
def read_and_decode (env : IterEnv) (m : Machine) : Option Machine :=
  if m.player.state ≠ STATE_STARTED then some m
  else
    let ret := env.read_frame
    let m := { m with statics := { m.statics with pkt := env.pkt } }
    let after_read (m : Machine) : Option Machine :=
      if m.statics.eof ≠ 0 then
        let m :=
          if decide (m.player.audio_stream ≥ 0)
              && (match m.player.audio_st with | some st => st.cap_delay | none => false) then
            { m with statics := { m.statics with pkt := AVPacket.init m.player.audio_stream } }
          else m
        let m := (change_state m STATE_COMPLETED).2
        some { m with statics := { m.statics with epoll_timeout := -1 } }
      else
        let r : Option Machine :=
          if m.statics.pkt.stream_index = m.player.audio_stream then
            (audio_decode_frame env.fuel env.decode m).map (fun x => x.2)
          else some m
        -- `av_free_packet(&pkt)`
        r.map (fun m => { m with statics := { m.statics with
          pkt := { m.statics.pkt with data := false, size := 0 } } })
    if ret < 0 then
      if ret = AVERROR_EOF ∨ env.pb_eof then
        let m := { m with statics := { m.statics with eof := 1 } }
        if m.player.looping ≠ 0 then
          let m := { m with statics := { m.statics with eof := 0 } }
          some { m with player := ap_seek m.player 0 0 }
        else after_read m
      else some m
    else after_read m

/-- One turn of the `while (!quit)` loop of `player_thread`. The readiness wait returns
the command at the head of the pipe if there is one; with an empty pipe it returns at once
when the timeout is 0 and blocks otherwise. The result is `none` when the turn does not
complete (the wait blocks, or `audio_decode_frame` does not return); otherwise it is the
machine after the turn and whether the loop is left. -/
def player_thread_iteration (env : IterEnv) (m : Machine) : Option (Bool × Machine) :=
  if env.epoll_fails then some (true, m)
  else
    match m.pipe with
    | [] =>
      if m.statics.epoll_timeout = 0 then
        (read_and_decode env m).map (fun m => (false, m))
      else none
    | cmd :: rest =>
      let r := dispatch env { m with pipe := rest } cmd
      (read_and_decode env r.2).map (fun m => (r.1, m))

/-- The part of `player_thread` after its loop: the state is forced to `STATE_END` and
every resource is released. -/
def player_thread_exit (m : Machine) : Machine :=
  let m := (change_state m STATE_END).2
  -- `if (player->audio_st && player->audio_st->codec) avcodec_close(...)` reads the stream
  -- behind `player->audio_st`
  let m := { m with fault := m.fault || dangling_audio_st m.player }
  let m := { m with statics := { m.statics with
    audio_buf := false, avr := false, frame := false,
    pkt := { m.statics.pkt with data := false, size := 0 } } }
  -- `if (player->ic) avformat_close_input(&player->ic);`, `player->audio_st` is not cleared
  { m with player := { m.player with
    ic := none
    audio_st := freed_stream m.player.ic m.player.audio_st } }

/-- The machines that can arise: a created player whose dispatcher thread has started,
followed by any interleaving of public operations, turns of the dispatcher loop (with any
outcomes of the external calls) and the exit of the dispatcher. -/
inductive Reachable : Machine → Prop where
  | create (callbacks : player_callbacks_t) :
      Reachable (player_thread_start (ap_create callbacks))
  | send_cmd (ok : Bool) (cmd : audio_cmd_t) {m : Machine} :
      Reachable m → Reachable (ap_send_cmd ok m cmd).2
  | set_datasource (ok : Bool) (url : List Char) {m : Machine} :
      Reachable m → Reachable (ap_set_datasource ok m url).2
  | seek (incr relative : Int) {m : Machine} :
      Reachable m → Reachable { m with player := ap_seek m.player incr relative }
  | set_looping (looping : Int) {m : Machine} :
      Reachable m → Reachable { m with player := ap_set_looping m.player looping }
  | iteration (env : IterEnv) {m m' : Machine} {quit : Bool} :
      Reachable m → player_thread_iteration env m = some (quit, m') → Reachable m'
  | exit {m : Machine} : Reachable m → Reachable (player_thread_exit m)

/-! ## The acceptance rule of the specification -/

/-- The transition table of section 4.1 of the specification, pair by pair. -/
def transition_table : List (audio_state_t × audio_state_t) :=
  [(STATE_IDLE, STATE_INITIALIZED),
   (STATE_INITIALIZED, STATE_PREPARING), (STATE_INITIALIZED, STATE_PREPARED),
   (STATE_PREPARING, STATE_PREPARED),
   (STATE_PREPARED, STATE_STOPPED), (STATE_PREPARED, STATE_STARTED),
   (STATE_STARTED, STATE_PAUSED), (STATE_STARTED, STATE_STOPPED),
   (STATE_STARTED, STATE_COMPLETED),
   (STATE_PAUSED, STATE_STOPPED), (STATE_PAUSED, STATE_STARTED),
   (STATE_COMPLETED, STATE_STOPPED), (STATE_COMPLETED, STATE_STARTED),
   (STATE_STOPPED, STATE_PREPARING), (STATE_STOPPED, STATE_PREPARED)]

/-- The acceptance rule of the specification: the requested state is `IDLE`, `ERROR` or
`END`, or the pair is in the transition table. -/
def spec_accepts (current requested : audio_state_t) : Prop :=
  requested = STATE_IDLE ∨ requested = STATE_ERROR ∨ requested = STATE_END
    ∨ (current, requested) ∈ transition_table

instance (current requested : audio_state_t) : Decidable (spec_accepts current requested) := by
  unfold spec_accepts; infer_instance

/-! ## Sample inputs and runs -/

/-- A listener with all three callbacks registered. -/
def all_callbacks : player_callbacks_t := { on_event := true, on_play := true, on_prepare := true }

/-- A stereo stream with a millisecond time base. -/
def sample_stream : AVStream :=
  { time_base := 1 / 1000, channels := 2, cap_delay := false, event_flags := 0 }

/-- Outcomes of a `PREPARE` in which every external call succeeds, on a session of the
given duration. -/
def prepare_succeeds (duration : Int) : PrepareEnv :=
  { open_input := 0, duration := duration, nb_streams := 1, find_stream_info := 0,
    best_stream := 0, decoder := true, avcodec_open2 := 0, codec_type_audio := true,
    sample_rate := 44100, channel_layout := 3, default_channel_layout := 3,
    on_prepare := 0, stream := sample_stream }

/-- Outcomes of a `PREPARE` in which `avformat_open_input` fails. -/
def prepare_open_fails : PrepareEnv := { prepare_succeeds 10000000 with open_input := -2 }

/-- Outcomes of a decode in which the decoder yields a frame in the output format. -/
def sample_decode : DecodeEnv :=
  { frame_alloc := true, len1 := 4, got_frame := 1, format := 1, channel_layout := 3,
    sample_rate := 44100, data_size := 16, avr_alloc := true, avresample_open := 0,
    realloc := true, out_samples := 4 }

/-- Outcomes of one turn of the dispatcher loop around the given `PREPARE` outcomes: the
wait, the seek and the packet read succeed. -/
def sample_env (prepare : PrepareEnv) : IterEnv :=
  { epoll_fails := false, prepare := prepare, seek_ret := 0, read_frame := 0,
    pkt := { data := true, size := 4, pts := 0, stream_index := 0 }, pb_eof := false,
    decode := fun _ => sample_decode, fuel := 1 }

/-- The machine after one turn of the dispatcher loop (unchanged if the turn does not
complete). -/
def turn (env : IterEnv) (m : Machine) : Machine :=
  match player_thread_iteration env m with
  | some (_, m') => m'
  | none => m

/-- The dispatcher processes the single command `cmd`, sent through `ap_send_cmd`. -/
def send_and_turn (env : IterEnv) (m : Machine) (cmd : audio_cmd_t) : Machine :=
  turn env (ap_send_cmd true m cmd).2

/-- A freshly created player whose dispatcher thread has started. -/
def fresh : Machine := player_thread_start (ap_create all_callbacks)

/-- The fresh player after `ap_set_datasource` and the dispatcher turn that handles it. -/
def initialized : Machine :=
  turn (sample_env (prepare_succeeds 10000000)) (ap_set_datasource true fresh ['a']).2

/-- The player after a successful `PREPARE` on a session of the given duration. -/
def prepared (duration : Int) : Machine :=
  send_and_turn (sample_env (prepare_succeeds duration)) initialized CMD_PREPARE

/-- The prepared player after `STOP`. -/
def stopped : Machine :=
  send_and_turn (sample_env (prepare_succeeds 10000000)) (prepared 10000000) CMD_STOP

/-- The stopped player after a second `PREPARE` in which `avformat_open_input` fails. -/
def reprepare_failed : Machine :=
  send_and_turn (sample_env prepare_open_fails) stopped CMD_PREPARE

/-- The five states in which a prepared session exists. -/
def playable (s : audio_state_t) : Prop :=
  s = STATE_PREPARED ∨ s = STATE_STARTED ∨ s = STATE_PAUSED ∨ s = STATE_COMPLETED
    ∨ s = STATE_STOPPED

instance (s : audio_state_t) : Decidable (playable s) := by
  unfold playable; infer_instance

/-- Whether a media session handle is open: `player->ic` is non-null and was filled by
`avformat_open_input`. -/
def session_open (player : player_t) : Prop :=
  ∃ ic, player.ic = some ic ∧ ic.opened = true

/-- The invariant of section 3 of the specification: the selected audio stream index is
valid exactly when the state is playable and a session is open. -/
def stream_index_invariant (m : Machine) : Prop :=
  0 ≤ m.player.audio_stream ↔ (playable m.player.state ∧ session_open m.player)

/-- The reading of the duration claim: in a playable state, with a session whose duration
is positive, the result is the duration in microseconds divided by 1000. -/
def duration_claim (player : player_t) : Prop :=
  ∀ ic, playable player.state → player.ic = some ic → 0 < ic.duration →
    (ap_get_duration player).1 = ic.duration / 1000

/-- The buffered-bytes fields of the player are both zero. -/
def buffer_fields_zero (m : Machine) : Prop :=
  m.player.audio_buf_size = 0 ∧ m.player.audio_buf_index = 0

/-- The listener notifications (`on_event` calls) among a list of calls. -/
def notifications (calls : List Call) : List Call :=
  calls.filter (fun c => match c with
    | Call.on_event _ _ _ => true
    | _ => false)

/-- The notification that an accepted `change_state` sends: one `EVENT_STATE_CHANGE` when
the listener is registered, nothing otherwise. -/
def state_change_calls (on_event : Bool) (old_state state : audio_state_t) : List Call :=
  if on_event then [Call.on_event EVENT_STATE_CHANGE old_state.toInt state.toInt] else []

/-- The lower seek bound of section 4.4 of the specification, over the integers. -/
def spec_seek_min (target offset : Int) : Int :=
  if offset > 0 then target - offset + 2 else INT64_MIN

/-- The upper seek bound of section 4.4 of the specification, over the integers. -/
def spec_seek_max (target offset : Int) : Int :=
  if offset < 0 then target - offset - 2 else INT64_MAX

/-- The prepared player after `START`: the dispatcher turn that handles the command also
reads and decodes one packet. -/
def started : Machine :=
  send_and_turn (sample_env (prepare_succeeds 10000000)) (prepared 10000000) CMD_START

/-- Outcomes of a dispatcher turn in which the packet read succeeds and the decoder
consumes the packet without producing a frame. -/
def env_no_frame : IterEnv :=
  { sample_env (prepare_succeeds 10000000) with
    decode := fun _ => { sample_decode with got_frame := 0 } }

/-- The started player after the absolute seek request `ap_seek(player, 5000000, 0)`. -/
def seek_latched : Machine := { started with player := ap_seek started.player 5000000 0 }

/-- The player after the dispatcher turn that handles `CMD_SEEK` for the latched seek. -/
def seek_serviced : Machine := send_and_turn env_no_frame seek_latched CMD_SEEK

/-- Whether the decoded frame needs conversion: the value `audio_resample` of
`audio_decode_frame`, the frame format differing from the output format. -/
def needs_conversion (env : DecodeEnv) (m : Machine) : Prop :=
  env.format ≠ m.player.sdl_sample_fmt
    ∨ env.channel_layout ≠ m.player.sdl_channel_layout
    ∨ env.sample_rate ≠ m.player.sdl_sample_rate

instance (env : DecodeEnv) (m : Machine) : Decidable (needs_conversion env m) := by
  unfold needs_conversion; infer_instance

/-- Whether the frame format differs from the one the resampler was configured for: the
value `resample_changed` of `audio_decode_frame`. -/
def resample_changed (env : DecodeEnv) (m : Machine) : Prop :=
  env.format ≠ m.player.resample_sample_fmt
    ∨ env.channel_layout ≠ m.player.resample_channel_layout
    ∨ env.sample_rate ≠ m.player.resample_sample_rate

instance (env : DecodeEnv) (m : Machine) : Decidable (resample_changed env m) := by
  unfold resample_changed; infer_instance

/-- Outcomes of a decode in which the frame needs conversion (its sample format is not
`AV_SAMPLE_FMT_S16`) and `avresample_alloc_context` fails. -/
def decode_alloc_fails : DecodeEnv := { sample_decode with format := 3, avr_alloc := false }

/-- The started player holding a freshly read packet of 4 bytes for the audio stream. -/
def started_with_packet : Machine :=
  { started with statics := { started.statics with
      pkt := { data := true, size := 4, pts := 0, stream_index := 0 } } }

/-- The decoder is reached and produces a frame that needs conversion: a frame buffer is
available, the abort flag is clear, the decoder reports a frame, and its format differs
from the output format. -/
def frame_needs_conversion (env : DecodeEnv) (m : Machine) : Prop :=
  (m.statics.frame = true ∨ env.frame_alloc = true)
    ∧ m.player.abort_call = 0
    ∧ env.got_frame ≠ 0
    ∧ needs_conversion env m

/-- The resampler fails on the decoded frame: its allocation fails, or its configuration
(`avresample_open`) fails, or the conversion (`avresample_convert`) fails. -/
def resampler_failure (env : DecodeEnv) (m : Machine) : Prop :=
  (m.statics.avr = false ∧ env.avr_alloc = false)
    ∨ ((m.statics.avr = false ∨ resample_changed env m)
        ∧ (m.statics.avr = false → env.avr_alloc = true)
        ∧ env.avresample_open < 0)
    ∨ ((m.statics.avr = false → env.avr_alloc = true)
        ∧ ((m.statics.avr = false ∨ resample_changed env m) → 0 ≤ env.avresample_open)
        ∧ env.realloc = true
        ∧ env.out_samples < 0)

/-- The timeout rule of section 4.2 of the specification: the wait timeout is 0 when the
state is `STARTED` and −1 when it is anything else. -/
def timeout_matches_state (m : Machine) : Prop :=
  (m.player.state = STATE_STARTED → m.statics.epoll_timeout = 0)
    ∧ (m.player.state ≠ STATE_STARTED → m.statics.epoll_timeout = -1)

/-- The abort flag is clear, and in `STATE_IDLE` no audio stream is selected and no
resampler exists. -/
def idle_is_clean (m : Machine) : Prop :=
  m.player.abort_call = 0
    ∧ (m.player.state = STATE_IDLE → m.player.audio_stream = -1 ∧ m.statics.avr = false)

/-- The machines with which the dispatcher enters its readiness wait: a created player
whose dispatcher thread has started, followed by any interleaving of public operations
and of turns of the dispatcher loop (with any outcomes of the external calls) that do not
leave the loop. -/
inductive AtWait : Machine → Prop where
  | create (callbacks : player_callbacks_t) :
      AtWait (player_thread_start (ap_create callbacks))
  | send_cmd (ok : Bool) (cmd : audio_cmd_t) {m : Machine} :
      AtWait m → AtWait (ap_send_cmd ok m cmd).2
  | set_datasource (ok : Bool) (url : List Char) {m : Machine} :
      AtWait m → AtWait (ap_set_datasource ok m url).2
  | seek (incr relative : Int) {m : Machine} :
      AtWait m → AtWait { m with player := ap_seek m.player incr relative }
  | set_looping (looping : Int) {m : Machine} :
      AtWait m → AtWait { m with player := ap_set_looping m.player looping }
  | iteration (env : IterEnv) {m m' : Machine} :
      AtWait m → player_thread_iteration env m = some (false, m') → AtWait m'

/-- The started player after `STOP`. -/
def stopped_at_wait_sample : Machine :=
  send_and_turn (sample_env (prepare_succeeds 10000000)) started CMD_STOP

/-- The calls of the decoder `avcodec_decode_audio4` among a list of calls. -/
def decoder_calls (calls : List Call) : List Call :=
  calls.filter (fun c => match c with
    | Call.avcodec_decode_audio4 => true
    | _ => false)

/-- The started player holding a freshly read packet of size 0 for the audio stream. -/
def started_with_empty_packet : Machine :=
  { started with statics := { started.statics with
      pkt := { data := true, size := 0, pts := 0, stream_index := 0 } } }

/-- Outcomes of a dispatcher turn in which `av_read_frame` succeeds with a packet of size
0 for the audio stream; `fuel` bounds the turns of the decode loop. -/
def env_empty_packet (fuel : Nat) : IterEnv :=
  { sample_env (prepare_succeeds 10000000) with
    pkt := { data := true, size := 0, pts := 0, stream_index := 0 }
    fuel := fuel }

/-- Outcomes of a dispatcher turn in which `av_read_frame` reports the end of the stream. -/
def env_eof : IterEnv :=
  { sample_env (prepare_succeeds 10000000) with read_frame := AVERROR_EOF }

/-- The started player after a dispatcher turn that reads the end of the stream with
looping off. -/
def completed : Machine := turn env_eof started

/-- The completed player after `ap_set_looping(player, 1)`. -/
def completed_looping : Machine :=
  { completed with player := ap_set_looping completed.player 1 }

/-- The completed player, now looping, after `START`; the dispatcher turn that handles the
command reads the end of the stream again. -/
def restarted : Machine := send_and_turn env_eof completed_looping CMD_START

/-- The restarted player after a further dispatcher turn whose packet read succeeds. -/
def replayed : Machine := turn (sample_env (prepare_succeeds 10000000)) restarted

/-! ## andrudio.c: the boundary seek operation -/

/-- The function `Java_danbroid_andrudio_LibAndrudio_seekTo` of `andrudio.c`. `handle` is
the player behind the `jlong` handle (`none` for a null handle); `msecs` is a `jint`, so
the product `msecs * 1000` is computed in 32-bit `int` arithmetic before it is widened to
the `int64_t` parameter of `ap_seek`; `relative` is the `jboolean` as an `int`. -/
def Java_danbroid_andrudio_LibAndrudio_seekTo (handle : Option player_t) (msecs : Int)
    (relative : Int) : Int × Option player_t :=
  match handle with
  | none => (-1, none)
  | some player => (0, some (ap_seek player (wrap32 (msecs * 1000)) relative))

/-- The pointer `player->audio_st` points to a freed stream only in `STATE_PREPARING` and
in `STATE_END`. -/
def stream_live_outside_preparing (m : Machine) : Prop :=
  dangling_audio_st m.player = true →
    m.player.state = STATE_PREPARING ∨ m.player.state = STATE_END

/-! # Theorems -/

/-! ## The state machine -/

theorem change_state_ok_iff (current requested : audio_state_t) :
    change_state_ok current requested = true ↔ spec_accepts current requested := by
  cases current <;> cases requested <;> decide

theorem change_state_fst (m : Machine) (state : audio_state_t) :
    (change_state m state).1 = if change_state_ok m.player.state state then SUCCESS else -1 := by
  unfold change_state
  by_cases h : change_state_ok m.player.state state = true
  · by_cases hc : m.player.callbacks.on_event = true <;> simp [h, hc, SUCCESS]
  · simp [h, SUCCESS]

/-- C1: for every pair (current, requested) of the ten playback states, `change_state`
returns `SUCCESS` if and only if the requested state is `IDLE`, `ERROR` or `END` or the pair
is one of the fifteen pairs of the transition table; for every other pair it returns −1. -/
theorem change_state_accepts_iff_table (m : Machine) (requested : audio_state_t) :
    ((change_state m requested).1 = SUCCESS ↔ spec_accepts m.player.state requested)
    ∧ (¬ spec_accepts m.player.state requested → (change_state m requested).1 = -1) := by
  rw [change_state_fst, ← change_state_ok_iff]
  by_cases h : change_state_ok m.player.state requested = true <;> simp [h, SUCCESS]

/-- C2: when `change_state` rejects a request, the whole machine (the state and every
other field of the player, the statics, the pipe) is unchanged, no call is added to the
trace (the listener is not invoked), and the caller receives the failure code −1. -/
theorem change_state_rejected_no_effect (m : Machine) (requested : audio_state_t)
    (h : (change_state m requested).1 ≠ SUCCESS) :
    (change_state m requested).2 = m ∧ (change_state m requested).1 = -1 := by
  have h1 := change_state_fst m requested
  by_cases hok : change_state_ok m.player.state requested = true
  · rw [h1] at h; simp [hok] at h
  · constructor
    · unfold change_state; simp [hok, SUCCESS]
    · rw [h1]; simp [hok]

theorem change_state_rejected_no_effect_witness :
    (change_state (ap_create ⟨true, true, true⟩) STATE_STARTED).1 ≠ SUCCESS
    ∧ (change_state (ap_create ⟨true, true, true⟩) STATE_STARTED).2
        = ap_create ⟨true, true, true⟩
    ∧ (change_state (ap_create ⟨true, true, true⟩) STATE_STARTED).1 = -1 :=
  ⟨by decide, change_state_rejected_no_effect (ap_create ⟨true, true, true⟩) STATE_STARTED
    (by decide)⟩

/-- C3: for every player with a registered `on_event` listener and every accepted request,
`change_state` sets the state to the requested state, changes nothing else, and invokes
the listener exactly once, with `EVENT_STATE_CHANGE`, the state before the call and the
requested state. -/
theorem change_state_accepted_notifies (m : Machine) (requested : audio_state_t)
    (hl : m.player.callbacks.on_event = true)
    (h : (change_state m requested).1 = SUCCESS) :
    (change_state m requested).2 =
      { m with
        player := { m.player with state := requested }
        trace := m.trace ++
          [Call.on_event EVENT_STATE_CHANGE m.player.state.toInt requested.toInt] } := by
  have h1 := change_state_fst m requested
  by_cases hok : change_state_ok m.player.state requested = true
  · unfold change_state; simp [hok, hl]
  · rw [h1] at h; simp [hok, SUCCESS] at h

theorem change_state_accepted_notifies_witness :
    (ap_create ⟨true, true, true⟩).player.callbacks.on_event = true
    ∧ (change_state (ap_create ⟨true, true, true⟩) STATE_INITIALIZED).1 = SUCCESS
    ∧ (change_state (ap_create ⟨true, true, true⟩) STATE_INITIALIZED).2 =
      { ap_create ⟨true, true, true⟩ with
        player := { (ap_create ⟨true, true, true⟩).player with state := STATE_INITIALIZED }
        trace := (ap_create ⟨true, true, true⟩).trace ++
          [Call.on_event EVENT_STATE_CHANGE STATE_IDLE.toInt STATE_INITIALIZED.toInt] } :=
  ⟨rfl, by decide, change_state_accepted_notifies (ap_create ⟨true, true, true⟩)
    STATE_INITIALIZED rfl (by decide)⟩

/-! ## Reachability of the sample runs -/

theorem turn_reachable (env : IterEnv) {m : Machine} (h : Reachable m) :
    Reachable (turn env m) := by
  unfold turn
  cases hi : player_thread_iteration env m with
  | none => simpa using h
  | some r => exact Reachable.iteration env h (by rw [hi])

theorem send_and_turn_reachable (env : IterEnv) {m : Machine} (cmd : audio_cmd_t)
    (h : Reachable m) : Reachable (send_and_turn env m cmd) :=
  turn_reachable env (Reachable.send_cmd true cmd h)

theorem fresh_reachable : Reachable fresh := Reachable.create all_callbacks

theorem initialized_reachable : Reachable initialized :=
  turn_reachable _ (Reachable.set_datasource true ['a'] fresh_reachable)

theorem prepared_reachable (duration : Int) : Reachable (prepared duration) :=
  send_and_turn_reachable _ _ initialized_reachable

theorem stopped_reachable : Reachable stopped :=
  send_and_turn_reachable _ _ (prepared_reachable _)

theorem reprepare_failed_reachable : Reachable reprepare_failed :=
  send_and_turn_reachable _ _ stopped_reachable

theorem initialized_state : initialized.player.state = STATE_INITIALIZED := by decide

theorem prepared_state (duration : Int) :
    (prepared duration).player.state = STATE_PREPARED := by rfl

theorem stopped_state : stopped.player.state = STATE_STOPPED := by decide

/-! ## START from STOPPED (C4) -/

theorem cmd_reset_state (m : Machine) (h : m.player.state ≠ STATE_END) :
    (cmd_reset m).2.player.state = STATE_IDLE := by
  unfold cmd_reset
  by_cases hi : m.player.state = STATE_IDLE
  · simp [hi]
  · simp only [hi, if_false, ne_eq, h, not_false_eq_true, if_true]
    unfold change_state
    by_cases hc : m.player.callbacks.on_event = true <;> simp [change_state_ok, SUCCESS, hc]

theorem cmd_prepare_from_idle (env : PrepareEnv) (m : Machine)
    (h : m.player.state = STATE_IDLE) : cmd_prepare env m = (FAILURE, m) := by
  unfold cmd_prepare change_state
  simp [h, change_state_ok, SUCCESS]

/-- C4 (the code at the failing input): for every player in `STATE_STOPPED` and whatever
the outcomes of the external calls, `cmd_start` returns `FAILURE` and leaves the player in
`STATE_IDLE`: the `RESET` it performs first moves the state to `IDLE`, from which the
`PREPARE` that follows is rejected. -/
theorem cmd_start_from_stopped_fails (env : PrepareEnv) (m : Machine)
    (h : m.player.state = STATE_STOPPED) :
    (cmd_start env m).1 = FAILURE ∧ (cmd_start env m).2.player.state = STATE_IDLE := by
  have hr : (cmd_reset m).2.player.state = STATE_IDLE :=
    cmd_reset_state m (by rw [h]; decide)
  have hs : cmd_start env m = cmd_prepare env (cmd_reset m).2 := by
    unfold cmd_start; simp [h]
  rw [hs, cmd_prepare_from_idle env _ hr]
  exact ⟨rfl, hr⟩

theorem cmd_start_from_stopped_fails_witness :
    stopped.player.state = STATE_STOPPED
    ∧ (cmd_start (prepare_succeeds 10000000) stopped).1 = FAILURE
    ∧ (cmd_start (prepare_succeeds 10000000) stopped).2.player.state = STATE_IDLE :=
  ⟨stopped_state, cmd_start_from_stopped_fails (prepare_succeeds 10000000) stopped stopped_state⟩

/-! ## The stream index invariant (C5) -/

/-- C5 (the code at the failing input): after `SET_DATASOURCE`, a successful `PREPARE`,
`STOP` and a second `PREPARE` in which `avformat_open_input` fails, the machine is
reachable, its state is `STATE_PREPARING`, no session is open, and yet the selected audio
stream index is still 0: the invariant of the specification does not hold there. -/
theorem stale_stream_index_after_failed_prepare :
    Reachable reprepare_failed
    ∧ reprepare_failed.player.state = STATE_PREPARING
    ∧ reprepare_failed.player.ic = none
    ∧ reprepare_failed.player.audio_stream = 0
    ∧ ¬ stream_index_invariant reprepare_failed := by
  have hs : reprepare_failed.player.state = STATE_PREPARING := by decide
  have ha : reprepare_failed.player.audio_stream = 0 := by decide
  refine ⟨reprepare_failed_reachable, hs, by decide, ha, ?_⟩
  intro h
  have := (h.mp (by rw [ha])).1
  rw [hs] at this
  revert this
  decide

/-! ## Setting the data source (C6) -/

/-- C6: for every player whose state is not `IDLE`, `ap_set_datasource` returns the error
code −1 and leaves the whole machine unchanged (the stored url is kept, nothing is written
to the command pipe), and the handler `cmd_set_datasource` returns −1 without changing
anything; when the state is `IDLE` the handler succeeds and moves the state to
`INITIALIZED`. -/
theorem set_datasource_only_in_idle (ok : Bool) (m : Machine) (url : List Char) :
    (m.player.state ≠ STATE_IDLE →
      ap_set_datasource ok m url = (-1, m) ∧ cmd_set_datasource m = (-1, m))
    ∧ (m.player.state = STATE_IDLE →
      (cmd_set_datasource m).1 = SUCCESS
      ∧ (cmd_set_datasource m).2.player.state = STATE_INITIALIZED) := by
  constructor
  · intro h
    constructor
    · unfold ap_set_datasource; simp [h, FAILURE]
    · unfold cmd_set_datasource; simp [h, FAILURE]
  · intro h
    unfold cmd_set_datasource change_state
    by_cases hc : m.player.callbacks.on_event = true <;> simp [h, change_state_ok, SUCCESS, hc]

theorem set_datasource_only_in_idle_witness :
    (stopped.player.state ≠ STATE_IDLE
      ∧ ap_set_datasource true stopped ['b'] = (-1, stopped)
      ∧ cmd_set_datasource stopped = (-1, stopped))
    ∧ (fresh.player.state = STATE_IDLE
      ∧ (cmd_set_datasource fresh).1 = SUCCESS
      ∧ (cmd_set_datasource fresh).2.player.state = STATE_INITIALIZED) :=
  ⟨⟨by decide, (set_datasource_only_in_idle true stopped ['b']).1 (by decide)⟩,
   ⟨rfl, (set_datasource_only_in_idle true fresh ['b']).2 rfl⟩⟩

/-! ## Duration (C7) -/

theorem wrap32_of_lt (x : Int) (h0 : 0 ≤ x) (h : x < 2 ^ 31) : wrap32 x = x := by
  unfold wrap32
  rw [Int.emod_eq_of_lt (by omega) (by omega)]
  omega

/-- C7 (as stated, refuted): a reachable player in `STATE_PREPARED` whose session lasts
2147483648000 microseconds; `ap_get_duration` returns −2147483648, which is neither the
duration divided by 1000 (2147483648) nor −1. -/
theorem ap_get_duration_wraps :
    Reachable (prepared 2147483648000)
    ∧ (prepared 2147483648000).player.state = STATE_PREPARED
    ∧ (prepared 2147483648000).player.ic = some ⟨true, 2147483648000, 1⟩
    ∧ (ap_get_duration (prepared 2147483648000).player).1 = -2147483648
    ∧ ¬ duration_claim (prepared 2147483648000).player := by
  have hs : (prepared 2147483648000).player.state = STATE_PREPARED := prepared_state _
  have hi : (prepared 2147483648000).player.ic = some ⟨true, 2147483648000, 1⟩ := by rfl
  have hv : (ap_get_duration (prepared 2147483648000).player).1 = -2147483648 := by
    unfold ap_get_duration
    rw [hi]
    simp [hs, AV_NOPTS_VALUE, INT64_MIN, wrap32]
    decide
  refine ⟨prepared_reachable _, hs, hi, hv, ?_⟩
  intro h
  have := h ⟨true, 2147483648000, 1⟩ (by rw [hs]; decide) hi (by decide)
  rw [hv] at this
  revert this
  decide

/-- C7 (amended): `ap_get_duration` never changes the player; in a playable state
(`PREPARED`, `STARTED`, `PAUSED`, `STOPPED`, `COMPLETED`) with a non-null session whose
duration is positive it returns the duration in microseconds divided by 1000 (integer
division, no rounding) converted to `int32_t`, which is the quotient itself whenever the
quotient is below 2^31; in every other case it returns −1. -/
theorem ap_get_duration_spec (p : player_t) :
    (ap_get_duration p).2 = p
    ∧ (∀ ic, playable p.state → p.ic = some ic → 0 < ic.duration →
        (ap_get_duration p).1 = wrap32 (ic.duration / 1000)
        ∧ (ic.duration / 1000 < 2 ^ 31 → (ap_get_duration p).1 = ic.duration / 1000))
    ∧ ((¬ playable p.state ∨ p.ic = none ∨ ∃ ic, p.ic = some ic ∧ ic.duration ≤ 0) →
        (ap_get_duration p).1 = -1) := by
  have hplay : (p.state = STATE_PREPARED ∨ p.state = STATE_STARTED ∨ p.state = STATE_PAUSED
      ∨ p.state = STATE_STOPPED ∨ p.state = STATE_COMPLETED) ↔ playable p.state := by
    unfold playable; tauto
  refine ⟨?_, ?_, ?_⟩
  · unfold ap_get_duration
    split_ifs
    · split
      · split_ifs <;> rfl
      · rfl
    · rfl
  · intro ic hp hic hd
    have hn : ic.duration ≠ AV_NOPTS_VALUE := by
      simp only [AV_NOPTS_VALUE, INT64_MIN]; omega
    have hv : (ap_get_duration p).1 = wrap32 (ic.duration / 1000) := by
      unfold ap_get_duration
      rw [if_pos (hplay.mpr hp), hic]
      simp only [hd, hn, ne_eq, not_false_eq_true, and_self, if_true]
      rw [Int.tdiv_eq_ediv (le_of_lt hd) (by decide)]
    refine ⟨hv, fun hlt => ?_⟩
    rw [hv, wrap32_of_lt _ (Int.ediv_nonneg (le_of_lt hd) (by decide)) hlt]
  · intro h
    unfold ap_get_duration
    by_cases hp : playable p.state
    · rw [if_pos (hplay.mpr hp)]
      rcases h with h | h | ⟨ic, hic, hd⟩
      · exact absurd hp h
      · rw [h]
      · rw [hic]
        have : ¬ (ic.duration > 0 ∧ ic.duration ≠ AV_NOPTS_VALUE) := by
          intro hh; omega
        simp only [this, if_false]
    · rw [if_neg (fun hh => hp (hplay.mp hh))]

theorem ap_get_duration_spec_witness :
    (ap_get_duration (prepared 10000000).player).2 = (prepared 10000000).player
    ∧ (playable (prepared 10000000).player.state
        ∧ (prepared 10000000).player.ic = some ⟨true, 10000000, 1⟩
        ∧ (0 : Int) < 10000000
        ∧ (ap_get_duration (prepared 10000000).player).1 = wrap32 (10000000 / 1000)
        ∧ ((10000000 : Int) / 1000 < 2 ^ 31
            ∧ (ap_get_duration (prepared 10000000).player).1 = 10000000 / 1000))
    ∧ (¬ playable fresh.player.state ∧ (ap_get_duration fresh.player).1 = -1) :=
  have hp : playable (prepared 10000000).player.state := by rw [prepared_state]; decide
  have hi : (prepared 10000000).player.ic = some ⟨true, 10000000, 1⟩ := rfl
  have h := (ap_get_duration_spec (prepared 10000000).player).2.1 ⟨true, 10000000, 1⟩ hp hi
    (by decide)
  ⟨(ap_get_duration_spec (prepared 10000000).player).1,
   ⟨hp, hi, by decide, h.1, by decide, h.2 (by decide)⟩,
   ⟨by decide, (ap_get_duration_spec fresh.player).2.2 (Or.inl (by decide))⟩⟩

/-! ## Position (C8, C9) -/

theorem ap_get_audio_clock_of_buffer_zero (p : player_t)
    (h : p.audio_buf_size = 0 ∧ p.audio_buf_index = 0) :
    audio_write_get_buf_size p = 0 ∧ ap_get_audio_clock p = p.audio_clock := by
  have h0 : audio_write_get_buf_size p = 0 := by
    unfold audio_write_get_buf_size wrapU32 wrap32
    rw [h.1, h.2]; decide
  refine ⟨h0, ?_⟩
  unfold ap_get_audio_clock
  simp only [h0]
  split_ifs <;> simp

theorem change_state_buffer (m : Machine) (s : audio_state_t) (h : buffer_fields_zero m) :
    buffer_fields_zero (change_state m s).2 := by
  unfold change_state buffer_fields_zero at *
  dsimp only
  split_ifs <;> exact h

theorem stream_component_open_buffer (env : PrepareEnv) (ic : AVFormatContext) (m : Machine)
    (i : Int) (h : buffer_fields_zero m) :
    buffer_fields_zero (stream_component_open env ic m i).2 := by
  unfold stream_component_open buffer_fields_zero at *
  dsimp only
  split_ifs <;> first | exact h | simp

theorem cmd_prepare_buffer (env : PrepareEnv) (m : Machine) (h : buffer_fields_zero m) :
    buffer_fields_zero (cmd_prepare env m).2 := by
  have h1 := change_state_buffer m STATE_PREPARING h
  unfold cmd_prepare
  dsimp only
  split_ifs
  · exact h1
  · exact h1
  · exact h1
  · exact stream_component_open_buffer _ _ _ _ h1
  · exact change_state_buffer _ _ (stream_component_open_buffer _ _ _ _ h1)
  · exact h1
  · exact change_state_buffer _ _ h1

theorem cmd_reset_buffer (m : Machine) (h : buffer_fields_zero m) :
    buffer_fields_zero (cmd_reset m).2 := by
  have h1 := change_state_buffer m STATE_IDLE h
  unfold cmd_reset
  dsimp only
  split_ifs
  · exact h
  · exact h1
  · exact h

theorem cmd_pause_buffer (m : Machine) (h : buffer_fields_zero m) :
    buffer_fields_zero (cmd_pause m).2 := by
  unfold cmd_pause
  dsimp only
  split_ifs
  · exact change_state_buffer _ _ h
  · exact h

theorem cmd_start_buffer (env : PrepareEnv) (m : Machine) (h : buffer_fields_zero m) :
    buffer_fields_zero (cmd_start env m).2 := by
  unfold cmd_start
  dsimp only
  split_ifs
  · exact h
  · exact cmd_prepare_buffer _ _ (cmd_reset_buffer _ h)
  · exact change_state_buffer _ STATE_STARTED h
  · exact change_state_buffer _ STATE_STARTED h
  · exact change_state_buffer _ STATE_STARTED h
  · exact change_state_buffer _ STATE_STARTED h

theorem cmd_stop_buffer (m : Machine) (h : buffer_fields_zero m) :
    buffer_fields_zero (cmd_stop m).2 := by
  unfold cmd_stop
  exact change_state_buffer _ _ h

theorem cmd_seek_buffer (r : Int) (m : Machine) (h : buffer_fields_zero m) :
    buffer_fields_zero (cmd_seek r m).2 := by
  unfold cmd_seek
  dsimp only
  split_ifs <;> exact h

theorem cmd_set_datasource_buffer (m : Machine) (h : buffer_fields_zero m) :
    buffer_fields_zero (cmd_set_datasource m).2 := by
  unfold cmd_set_datasource
  split_ifs
  · exact h
  · exact change_state_buffer _ _ h

theorem dispatch_buffer (env : IterEnv) (m : Machine) (cmd : audio_cmd_t)
    (h : buffer_fields_zero m) : buffer_fields_zero (dispatch env m cmd).2 := by
  cases cmd <;> unfold dispatch <;> dsimp only
  · exact cmd_set_datasource_buffer _ h
  · exact cmd_prepare_buffer _ _ h
  · exact cmd_start_buffer _ _ h
  · exact cmd_pause_buffer _ h
  · exact cmd_stop_buffer _ h
  · exact cmd_seek_buffer _ _ h
  · exact cmd_reset_buffer _ h
  · exact h

theorem audio_decode_frame_resampler_buffer (env : DecodeEnv) (m : Machine) (a c : Bool)
    (h : buffer_fields_zero m) :
    buffer_fields_zero (audio_decode_frame_resampler env m a c).2 := by
  unfold audio_decode_frame_resampler
  dsimp only
  split_ifs <;> exact h

theorem audio_decode_frame_play_buffer (m : Machine) (d : Int)
    (h : buffer_fields_zero m) : buffer_fields_zero (audio_decode_frame_play m d).2 := by
  unfold audio_decode_frame_play
  dsimp only
  split_ifs <;> exact h

theorem audio_decode_frame_body_buffer (env : DecodeEnv) (m : Machine)
    (h : buffer_fields_zero m) : buffer_fields_zero (audio_decode_frame_body env m).2 := by
  unfold audio_decode_frame_body
  dsimp only
  split_ifs <;>
    first
    | exact h
    | exact audio_decode_frame_resampler_buffer _ _ _ _ h
    | exact audio_decode_frame_play_buffer _ _ (audio_decode_frame_resampler_buffer _ _ _ _ h)

theorem audio_decode_frame_buffer (fuel : Nat) :
    ∀ (envs : Nat → DecodeEnv) (m : Machine) (r : Int × Machine),
      buffer_fields_zero m → audio_decode_frame fuel envs m = some r →
      buffer_fields_zero r.2 := by
  induction fuel with
  | zero => intro envs m r _ h; simp [audio_decode_frame] at h
  | succ n ih =>
    intro envs m r hm h
    have hb : buffer_fields_zero
        (if m.statics.pkt.size > 0 then audio_decode_frame_body (envs 0) m else (none, m)).2 := by
      split_ifs
      · exact audio_decode_frame_body_buffer _ _ hm
      · exact hm
    unfold audio_decode_frame at h
    generalize (if m.statics.pkt.size > 0 then audio_decode_frame_body (envs 0) m
      else (none, m)) = r0 at h hb
    dsimp only at h
    split at h
    · cases h; exact hb
    · split_ifs at h
      · cases h; exact hb
      · exact ih _ _ _ (by exact hb) h
      · exact ih _ _ _ (by exact hb) h

theorem ap_seek_buffer (p : player_t) (incr relative : Int) :
    (ap_seek p incr relative).audio_buf_size = p.audio_buf_size
    ∧ (ap_seek p incr relative).audio_buf_index = p.audio_buf_index := by
  unfold ap_seek stream_seek
  dsimp only
  split_ifs <;> exact ⟨rfl, rfl⟩

theorem read_and_decode_buffer (env : IterEnv) (m m' : Machine)
    (h : buffer_fields_zero m) (hr : read_and_decode env m = some m') :
    buffer_fields_zero m' := by
  have hseek : ∀ (m1 : Machine), m1.player = ap_seek m.player 0 0 → buffer_fields_zero m1 := by
    intro m1 h1
    unfold buffer_fields_zero
    rw [h1, (ap_seek_buffer _ _ _).1, (ap_seek_buffer _ _ _).2]
    exact h
  unfold read_and_decode at hr
  dsimp only at hr
  split_ifs at hr
  all_goals
    first
    | (cases hr; first | exact h | exact change_state_buffer _ _ h | exact hseek _ rfl)
    | (simp only [Option.map_eq_some'] at hr
       obtain ⟨a, ha, rfl⟩ := hr
       obtain ⟨b, hb, rfl⟩ := ha
       exact audio_decode_frame_buffer _ _ _ _ (by exact h) hb)

theorem player_thread_iteration_buffer (env : IterEnv) (m m' : Machine) (quit : Bool)
    (h : buffer_fields_zero m) (hr : player_thread_iteration env m = some (quit, m')) :
    buffer_fields_zero m' := by
  have key : ∀ (q : Bool) (m1 : Machine), buffer_fields_zero m1 →
      Option.map (fun x => (q, x)) (read_and_decode env m1) = some (quit, m') →
      buffer_fields_zero m' := by
    intro q m1 h1 hq
    simp only [Option.map_eq_some'] at hq
    obtain ⟨a, ha, hq⟩ := hq
    cases hq
    exact read_and_decode_buffer _ _ _ h1 ha
  unfold player_thread_iteration at hr
  split_ifs at hr
  · cases hr; exact h
  · split at hr
    · exact key _ _ h hr
    · exact key _ _ (dispatch_buffer _ _ _ (by exact h)) hr
  · split at hr
    · cases hr
    · exact key _ _ (dispatch_buffer _ _ _ (by exact h)) hr

theorem reachable_buffer_fields_zero {m : Machine} (h : Reachable m) :
    buffer_fields_zero m := by
  induction h with
  | create cb =>
    unfold player_thread_start
    dsimp only
    split_ifs <;> exact ⟨rfl, rfl⟩
  | send_cmd ok cmd _ ih =>
    unfold ap_send_cmd; split_ifs <;> exact ih
  | set_datasource ok url _ ih =>
    unfold ap_set_datasource ap_send_cmd; dsimp only; split_ifs <;> exact ih
  | seek incr relative _ ih =>
    unfold buffer_fields_zero
    rw [(ap_seek_buffer _ _ _).1, (ap_seek_buffer _ _ _).2]
    exact ih
  | set_looping looping _ ih => exact ih
  | iteration env _ hi ih => exact player_thread_iteration_buffer _ _ _ _ ih hi
  | exit _ ih =>
    unfold player_thread_exit
    exact change_state_buffer _ _ ih

/-- C8: in every reachable machine the buffered-bytes correction of `ap_get_audio_clock`
is zero (`audio_buf_size` and `audio_buf_index` are both 0, so
`audio_write_get_buf_size` is 0 and `ap_get_audio_clock` is the stored clock), and
`ap_get_position` returns the playback clock in seconds multiplied by 1000, truncated and
converted to a 32-bit integer. -/
theorem ap_get_position_is_clock (m : Machine) (h : Reachable m) :
    audio_write_get_buf_size m.player = 0
    ∧ ap_get_audio_clock m.player = m.player.audio_clock
    ∧ ap_get_position m.player = wrap32 (truncate (m.player.audio_clock * 1000)) := by
  have hb := ap_get_audio_clock_of_buffer_zero m.player (reachable_buffer_fields_zero h)
  refine ⟨hb.1, hb.2, ?_⟩
  unfold ap_get_position
  rw [hb.2]

theorem ap_get_position_is_clock_witness :
    Reachable (prepared 10000000)
    ∧ audio_write_get_buf_size (prepared 10000000).player = 0
    ∧ ap_get_audio_clock (prepared 10000000).player = (prepared 10000000).player.audio_clock
    ∧ ap_get_position (prepared 10000000).player
        = wrap32 (truncate ((prepared 10000000).player.audio_clock * 1000)) :=
  ⟨prepared_reachable _, ap_get_position_is_clock (prepared 10000000) (prepared_reachable _)⟩

/-- C9 (as stated, refuted): a freshly created player has no open stream, and
`ap_get_position` returns 0 for it, not the sentinel −1. -/
theorem ap_get_position_fresh_is_zero :
    Reachable fresh
    ∧ fresh.player.state = STATE_IDLE
    ∧ fresh.player.audio_st = none
    ∧ ap_get_position fresh.player = 0
    ∧ ap_get_position fresh.player ≠ -1 := by
  have h0 : ap_get_position fresh.player = 0 := by
    have hc : fresh.player.audio_clock = 0 := rfl
    unfold ap_get_position
    rw [(ap_get_audio_clock_of_buffer_zero fresh.player
      (reachable_buffer_fields_zero fresh_reachable)).2, hc]
    simp [truncate, wrap32]
  refine ⟨fresh_reachable, rfl, rfl, h0, ?_⟩
  rw [h0]; decide

/-- C9 (amended): for every player with no open stream (`audio_st` null) `ap_get_position`
applies no correction and returns the stored playback clock multiplied by 1000, truncated
and converted to a 32-bit integer; no sentinel exists. In particular `RESET` from a state
other than `IDLE` and `END` closes the stream and keeps the clock, so the position after
it is the one computed from the clock before it. -/
theorem ap_get_position_without_stream (m : Machine) :
    (m.player.audio_st = none →
      ap_get_position m.player = wrap32 (truncate (m.player.audio_clock * 1000)))
    ∧ (m.player.state ≠ STATE_IDLE → m.player.state ≠ STATE_END →
      (cmd_reset m).2.player.audio_st = none
      ∧ ap_get_position (cmd_reset m).2.player
          = wrap32 (truncate (m.player.audio_clock * 1000))) := by
  have key : ∀ p : player_t, p.audio_st = none →
      ap_get_position p = wrap32 (truncate (p.audio_clock * 1000)) := by
    intro p hp
    unfold ap_get_position ap_get_audio_clock
    simp [hp]
  refine ⟨key m.player, ?_⟩
  intro hi he
  have hst : (cmd_reset m).2.player.audio_st = none := by
    unfold cmd_reset; simp [hi]
  have hcl : (cmd_reset m).2.player.audio_clock = m.player.audio_clock := by
    unfold cmd_reset change_state
    dsimp only
    split_ifs <;> rfl
  refine ⟨hst, ?_⟩
  rw [key _ hst, hcl]

theorem ap_get_position_without_stream_witness :
    (fresh.player.audio_st = none
      ∧ ap_get_position fresh.player = wrap32 (truncate (fresh.player.audio_clock * 1000)))
    ∧ ((prepared 10000000).player.state ≠ STATE_IDLE
      ∧ (prepared 10000000).player.state ≠ STATE_END
      ∧ (cmd_reset (prepared 10000000)).2.player.audio_st = none
      ∧ ap_get_position (cmd_reset (prepared 10000000)).2.player
          = wrap32 (truncate ((prepared 10000000).player.audio_clock * 1000))) :=
  ⟨⟨rfl, (ap_get_position_without_stream fresh).1 rfl⟩,
   ⟨by rw [prepared_state]; decide, by rw [prepared_state]; decide,
    (ap_get_position_without_stream (prepared 10000000)).2
      (by rw [prepared_state]; decide) (by rw [prepared_state]; decide)⟩⟩

/-! ## Seek requests (C10) -/

/-- C10 (as stated, refuted): the fresh player has no pending seek, yet a seek request
through `ap_seek` latches nothing there: the pending flag stays 0 and the target stays 0,
because no stream is open. -/
theorem ap_seek_without_stream_latches_nothing :
    Reachable fresh
    ∧ fresh.player.seek_req = 0
    ∧ (ap_seek fresh.player 5000000 0).seek_req = 0
    ∧ (ap_seek fresh.player 5000000 0).seek_pos = 0
    ∧ (ap_seek fresh.player 5000000 0).seek_flags = 0 :=
  ⟨fresh_reachable, rfl, rfl, rfl, rfl⟩

/-- C10 (amended): with a seek pending, a further request through `stream_seek` or
`ap_seek` leaves the player unchanged (target, offset, flags and pending flag included);
with no seek pending, `stream_seek` latches the target, the offset and the frame seek
mode and sets the pending flag, and `ap_seek` does the same when a stream is open (the
target being the increment itself for an absolute request, the clock position plus the
increment for a relative one, the offset being the increment in both cases); with no
stream open `ap_seek` changes nothing. -/
theorem seek_request_latch (p : player_t) (pos rel incr relative : Int) :
    (p.seek_req ≠ 0 → stream_seek p pos rel = p ∧ ap_seek p incr relative = p)
    ∧ (p.seek_req = 0 →
        stream_seek p pos rel =
          { p with seek_pos := pos, seek_rel := rel, seek_flags := AVSEEK_FLAG_FRAME,
                   seek_req := 1 })
    ∧ (p.seek_req = 0 → p.audio_st ≠ none →
        ap_seek p incr relative =
          { p with
            seek_pos :=
              if relative ≠ 0 then
                wrap64 (wrap64 (truncate (ap_get_audio_clock p * (AV_TIME_BASE : ℚ))) + incr)
              else incr
            seek_rel := incr
            seek_flags := AVSEEK_FLAG_FRAME
            seek_req := 1 })
    ∧ (p.audio_st = none → ap_seek p incr relative = p) := by
  refine ⟨?_, ?_, ?_, ?_⟩
  · intro h
    have hs : ∀ a b, stream_seek p a b = p := by
      intro a b; unfold stream_seek; simp [h]
    refine ⟨hs _ _, ?_⟩
    unfold ap_seek
    dsimp only
    split_ifs <;> first | rfl | exact hs _ _
  · intro h
    unfold stream_seek; simp [h]
  · intro h hst
    have hn : p.audio_st.isNone = false := by
      cases hp : p.audio_st with
      | none => exact absurd hp hst
      | some _ => rfl
    unfold ap_seek stream_seek
    simp [h, hn]
  · intro h
    unfold ap_seek; simp [h]

theorem seek_request_latch_witness :
    ((stream_seek (prepared 10000000).player 7 7).seek_req ≠ 0
      ∧ stream_seek (stream_seek (prepared 10000000).player 7 7) 9 9
          = stream_seek (prepared 10000000).player 7 7
      ∧ ap_seek (stream_seek (prepared 10000000).player 7 7) 9 0
          = stream_seek (prepared 10000000).player 7 7)
    ∧ ((prepared 10000000).player.seek_req = 0
      ∧ (prepared 10000000).player.audio_st ≠ none
      ∧ ap_seek (prepared 10000000).player 9 0 =
          { (prepared 10000000).player with
            seek_pos :=
              if (0 : Int) ≠ 0 then
                wrap64 (wrap64 (truncate (ap_get_audio_clock (prepared 10000000).player
                  * (AV_TIME_BASE : ℚ))) + 9)
              else 9
            seek_rel := 9
            seek_flags := AVSEEK_FLAG_FRAME
            seek_req := 1 })
    ∧ (fresh.player.audio_st = none ∧ ap_seek fresh.player 9 0 = fresh.player) :=
  have h1 : (stream_seek (prepared 10000000).player 7 7).seek_req ≠ 0 := by decide
  have h2 : (prepared 10000000).player.seek_req = 0 := rfl
  have h3 : (prepared 10000000).player.audio_st ≠ none := by decide
  ⟨⟨h1, (seek_request_latch (stream_seek (prepared 10000000).player 7 7) 9 9 9 0).1 h1⟩,
   ⟨h2, h3, (seek_request_latch (prepared 10000000).player 9 9 9 0).2.2.1 h2 h3⟩,
   ⟨rfl, (seek_request_latch fresh.player 9 9 9 0).2.2.2 rfl⟩⟩

/-! ## Shape of an accepted or rejected state change -/

theorem change_state_eq (m : Machine) (s : audio_state_t) :
    change_state m s =
      if change_state_ok m.player.state s then
        (SUCCESS, { m with
          player := { m.player with state := s }
          trace := m.trace ++ state_change_calls m.player.callbacks.on_event m.player.state s })
      else (-1, m) := by
  unfold change_state state_change_calls
  by_cases h : change_state_ok m.player.state s = true
  · by_cases hc : m.player.callbacks.on_event = true <;> simp [h, hc, SUCCESS]
  · simp [h, SUCCESS]

theorem wrap64_of_range (x : Int) (h0 : INT64_MIN ≤ x) (h1 : x ≤ INT64_MAX) : wrap64 x = x := by
  unfold INT64_MIN at h0
  unfold INT64_MAX at h1
  unfold wrap64
  rw [Int.emod_eq_of_lt (by omega) (by omega)]
  omega

theorem wrap64_add_left (a b : Int) : wrap64 (wrap64 a + b) = wrap64 (a + b) := by
  unfold wrap64
  have : (a + 2 ^ 63) % 2 ^ 64 - 2 ^ 63 + b + 2 ^ 63 = (a + 2 ^ 63) % 2 ^ 64 + b := by ring
  rw [this, Int.emod_add_emod]
  congr 2
  ring

theorem started_state : started.player.state = STATE_STARTED := by decide

theorem started_reachable : Reachable started :=
  send_and_turn_reachable _ _ (prepared_reachable _)

/-! ## End of stream (C12) -/

theorem ap_seek_state (p : player_t) (incr relative : Int) :
    (ap_seek p incr relative).state = p.state
    ∧ (ap_seek p incr relative).looping = p.looping
    ∧ (ap_seek p incr relative).abort_call = p.abort_call
    ∧ (ap_seek p incr relative).audio_stream = p.audio_stream
    ∧ (ap_seek p incr relative).audio_st = p.audio_st
    ∧ (ap_seek p incr relative).callbacks = p.callbacks := by
  unfold ap_seek stream_seek
  dsimp only
  split_ifs <;> exact ⟨rfl, rfl, rfl, rfl, rfl, rfl⟩

/-- C12: when the dispatcher, in `STATE_STARTED`, reads a packet and the demuxer reports
end of stream (`av_read_frame` fails with `AVERROR_EOF`, or with the end-of-file flag of
the input set): with looping enabled the end-of-stream flag is cleared, the internal seek
`ap_seek(player, 0, 0)` is issued (latching target 0 when a stream is open and no seek is
pending), no notification is sent and the state stays `STARTED`; with looping disabled the
state becomes `COMPLETED` and the wait timeout becomes −1. -/
theorem end_of_stream_loops_or_completes (env : IterEnv) (m : Machine)
    (hs : m.player.state = STATE_STARTED) (hr : env.read_frame < 0)
    (he : env.read_frame = AVERROR_EOF ∨ env.pb_eof = true) :
    (m.player.looping ≠ 0 →
      read_and_decode env m =
        some { m with
          statics := { m.statics with pkt := env.pkt, eof := 0 }
          player := ap_seek m.player 0 0 }
      ∧ (ap_seek m.player 0 0).state = STATE_STARTED
      ∧ (m.player.audio_st ≠ none → m.player.seek_req = 0 →
          (ap_seek m.player 0 0).seek_pos = 0 ∧ (ap_seek m.player 0 0).seek_req = 1))
    ∧ (m.player.looping = 0 →
      ∃ m', read_and_decode env m = some m'
        ∧ m'.player.state = STATE_COMPLETED
        ∧ m'.statics.epoll_timeout = -1
        ∧ m'.statics.eof = 1) := by
  constructor
  · intro hl
    refine ⟨?_, ?_, ?_⟩
    · unfold read_and_decode
      simp [hs, hr, he, hl]
    · rw [(ap_seek_state _ _ _).1, hs]
    · intro hst hq
      have hn : m.player.audio_st.isNone = false := by
        cases hp : m.player.audio_st with
        | none => exact absurd hp hst
        | some _ => rfl
      unfold ap_seek stream_seek
      simp [hn, hq]
  · intro hl
    unfold read_and_decode
    dsimp only
    split_ifs <;>
      first
      | contradiction
      | (refine ⟨_, rfl, ?_, rfl, ?_⟩ <;> simp [change_state_eq, hs, change_state_ok])

theorem end_of_stream_loops_or_completes_witness :
    ((ap_set_looping started.player 1).looping ≠ 0
      ∧ read_and_decode { sample_env (prepare_succeeds 10000000) with read_frame := AVERROR_EOF }
          { started with player := ap_set_looping started.player 1 } =
        some { started with
          statics := { started.statics with
            pkt := (sample_env (prepare_succeeds 10000000)).pkt, eof := 0 }
          player := ap_seek (ap_set_looping started.player 1) 0 0 }
      ∧ (ap_seek (ap_set_looping started.player 1) 0 0).state = STATE_STARTED
      ∧ (ap_seek (ap_set_looping started.player 1) 0 0).seek_pos = 0
      ∧ (ap_seek (ap_set_looping started.player 1) 0 0).seek_req = 1)
    ∧ (started.player.looping = 0
      ∧ ∃ m', read_and_decode
            { sample_env (prepare_succeeds 10000000) with read_frame := AVERROR_EOF } started
          = some m'
        ∧ m'.player.state = STATE_COMPLETED
        ∧ m'.statics.epoll_timeout = -1
        ∧ m'.statics.eof = 1) :=
  have h1 := (end_of_stream_loops_or_completes
    { sample_env (prepare_succeeds 10000000) with read_frame := AVERROR_EOF }
    { started with player := ap_set_looping started.player 1 }
    started_state (by decide) (Or.inl rfl)).1 (by decide)
  have h2 := (end_of_stream_loops_or_completes
    { sample_env (prepare_succeeds 10000000) with read_frame := AVERROR_EOF }
    started started_state (by decide) (Or.inl rfl)).2 (by decide)
  ⟨⟨by decide, h1.1, h1.2.1, h1.2.2 (by decide) (by decide)⟩, ⟨by decide, h2⟩⟩

/-! ## Failures of PREPARE (C13) -/

theorem stream_component_open_codec_fails (env : PrepareEnv) (ic : AVFormatContext)
    (m : Machine) (i : Int) (h : env.decoder = false ∨ env.avcodec_open2 < 0) :
    (stream_component_open env ic m i).2 = m := by
  unfold stream_component_open
  dsimp only
  rcases h with h | h
  · split_ifs <;> first | rfl | simp_all
  · split_ifs <;> rfl

/-- C13: for every player on which `PREPARE` is accepted (state `INITIALIZED` or
`STOPPED`), if `avformat_open_input` fails, or `avformat_find_stream_info` fails, or the
audio codec cannot be opened (no decoder found, or `avcodec_open2` fails), then
`cmd_prepare` returns `FAILURE`, the state is left at `PREPARING`, and the only call made
to the listener is the notification of the change to `PREPARING`: there is no transition
to `PREPARED` and no notification of one. -/
theorem cmd_prepare_failure_stays_preparing (env : PrepareEnv) (m : Machine)
    (hs : m.player.state = STATE_INITIALIZED ∨ m.player.state = STATE_STOPPED)
    (hf : env.open_input < 0 ∨ env.find_stream_info < 0
      ∨ env.decoder = false ∨ env.avcodec_open2 < 0) :
    (cmd_prepare env m).1 = FAILURE
    ∧ (cmd_prepare env m).2.player.state = STATE_PREPARING
    ∧ (cmd_prepare env m).2.trace =
        m.trace ++ state_change_calls m.player.callbacks.on_event m.player.state STATE_PREPARING
    ∧ ∀ old, Call.on_event EVENT_STATE_CHANGE old STATE_PREPARED.toInt
        ∉ state_change_calls m.player.callbacks.on_event m.player.state STATE_PREPARING := by
  have hok : change_state_ok m.player.state STATE_PREPARING = true := by
    rcases hs with h | h <;> rw [h] <;> decide
  have hlast : ∀ old, Call.on_event EVENT_STATE_CHANGE old STATE_PREPARED.toInt
      ∉ state_change_calls m.player.callbacks.on_event m.player.state STATE_PREPARING := by
    intro old
    unfold state_change_calls
    split_ifs
    · simp [audio_state_t.toInt]
    · simp
  unfold cmd_prepare
  rw [change_state_eq, if_pos hok]
  dsimp only
  by_cases h1 : env.open_input < 0
  · simp [h1, SUCCESS, hlast]
  · by_cases h2 : env.find_stream_info < 0
    · simp [h1, h2, SUCCESS, hlast]
    · have h3 : env.decoder = false ∨ env.avcodec_open2 < 0 := by
        rcases hf with h | h | h | h
        · exact absurd h h1
        · exact absurd h h2
        · exact Or.inl h
        · exact Or.inr h
      simp only [SUCCESS, ne_eq, not_true_eq_false, if_false, h1, h2,
        stream_component_open_codec_fails _ _ _ _ h3, ite_self]
      simp [hlast]

theorem cmd_prepare_failure_stays_preparing_witness :
    (initialized.player.state = STATE_INITIALIZED ∨ initialized.player.state = STATE_STOPPED)
    ∧ (prepare_open_fails.open_input < 0 ∨ prepare_open_fails.find_stream_info < 0
      ∨ prepare_open_fails.decoder = false ∨ prepare_open_fails.avcodec_open2 < 0)
    ∧ (cmd_prepare prepare_open_fails initialized).1 = FAILURE
    ∧ (cmd_prepare prepare_open_fails initialized).2.player.state = STATE_PREPARING
    ∧ (cmd_prepare prepare_open_fails initialized).2.trace =
        initialized.trace ++ state_change_calls initialized.player.callbacks.on_event
          initialized.player.state STATE_PREPARING
    ∧ ∀ old, Call.on_event EVENT_STATE_CHANGE old STATE_PREPARED.toInt
        ∉ state_change_calls initialized.player.callbacks.on_event
          initialized.player.state STATE_PREPARING :=
  ⟨Or.inl initialized_state, Or.inl (by decide),
   cmd_prepare_failure_stays_preparing prepare_open_fails initialized
    (Or.inl initialized_state) (Or.inl (by decide))⟩

/-! ## Executing a seek (C17, C18) -/

theorem cmd_seek_eq (seek_ret : Int) (m : Machine) :
    (cmd_seek seek_ret m).2.player = { m.player with seek_req := 0 }
    ∧ (cmd_seek seek_ret m).2.statics = m.statics
    ∧ (cmd_seek seek_ret m).2.pipe = m.pipe
    ∧ (cmd_seek seek_ret m).2.trace =
        m.trace ++
          Call.avformat_seek_file
            (wrap64 (spec_seek_min m.player.seek_pos m.player.seek_rel)) m.player.seek_pos
            (wrap64 (spec_seek_max m.player.seek_pos m.player.seek_rel)) m.player.seek_flags
          :: (if m.player.abort_call = 0 ∧ 0 ≤ seek_ret ∧ m.player.callbacks.on_event = true
              then [Call.on_event EVENT_SEEK_COMPLETE 0 0] else [])
    ∧ (cmd_seek seek_ret m).1 = if m.player.abort_call ≠ 0 then -1 else seek_ret := by
  have hmin : (if m.player.seek_rel > 0 then
      wrap64 (wrap64 (m.player.seek_pos - m.player.seek_rel) + 2) else INT64_MIN)
      = wrap64 (spec_seek_min m.player.seek_pos m.player.seek_rel) := by
    unfold spec_seek_min
    split_ifs
    · rw [wrap64_add_left]
    · rw [wrap64_of_range _ (le_refl _) (by decide)]
  have hmax : (if m.player.seek_rel < 0 then
      wrap64 (wrap64 (m.player.seek_pos - m.player.seek_rel) - 2) else INT64_MAX)
      = wrap64 (spec_seek_max m.player.seek_pos m.player.seek_rel) := by
    unfold spec_seek_max
    split_ifs
    · rw [sub_eq_add_neg, wrap64_add_left, ← sub_eq_add_neg]
    · rw [wrap64_of_range _ (by decide) (le_refl _)]
  unfold cmd_seek
  dsimp only
  rw [hmin, hmax]
  split_ifs <;> first | (simp_all; done) | (simp_all; omega)

theorem started_clock : started.player.audio_clock = 0 := by
  have h : started.player.audio_clock = sample_stream.time_base * ((0 : Int) : ℚ) := rfl
  rw [h]; simp

theorem seek_serviced_clock : seek_serviced.player.audio_clock = 0 := by
  have h : seek_serviced.player.audio_clock = started.player.audio_clock := rfl
  rw [h, started_clock]

theorem notifications_append (a b : List Call) :
    notifications (a ++ b) = notifications a ++ notifications b := by
  unfold notifications; simp

theorem ap_seek_absolute (p : player_t) (t : Int) (hst : p.audio_st ≠ none)
    (hq : p.seek_req = 0) :
    ap_seek p t 0 =
      { p with seek_pos := t, seek_rel := t, seek_flags := AVSEEK_FLAG_FRAME, seek_req := 1 } := by
  have hn : p.audio_st.isNone = false := by
    cases hp : p.audio_st with
    | none => exact absurd hp hst
    | some _ => rfl
  unfold ap_seek stream_seek
  simp [hn, hq]

/-- C17: `cmd_seek` makes exactly one call to the demuxer, with the target `seek_pos`
itself, the latched seek flags, and the bounds of the specification computed in 64-bit
arithmetic: `seek_min` is `seek_pos − seek_rel + 2` when `seek_rel > 0` and `INT64_MIN`
otherwise, `seek_max` is `seek_pos − seek_rel − 2` when `seek_rel < 0` and `INT64_MAX`
otherwise; whenever `seek_pos − seek_rel ± 2` fits in 64 bits the bounds are those integers
themselves. -/
theorem cmd_seek_calls_demuxer (seek_ret : Int) (m : Machine) :
    (∃ rest, (cmd_seek seek_ret m).2.trace =
        m.trace ++
          Call.avformat_seek_file
            (wrap64 (spec_seek_min m.player.seek_pos m.player.seek_rel)) m.player.seek_pos
            (wrap64 (spec_seek_max m.player.seek_pos m.player.seek_rel)) m.player.seek_flags
          :: rest
        ∧ ∀ lo ts hi fl, Call.avformat_seek_file lo ts hi fl ∉ rest)
    ∧ (INT64_MIN ≤ m.player.seek_pos - m.player.seek_rel - 2 →
        m.player.seek_pos - m.player.seek_rel + 2 ≤ INT64_MAX →
        wrap64 (spec_seek_min m.player.seek_pos m.player.seek_rel)
          = spec_seek_min m.player.seek_pos m.player.seek_rel
        ∧ wrap64 (spec_seek_max m.player.seek_pos m.player.seek_rel)
          = spec_seek_max m.player.seek_pos m.player.seek_rel) := by
  constructor
  · refine ⟨_, (cmd_seek_eq seek_ret m).2.2.2.1, ?_⟩
    intro lo ts hi fl
    split_ifs <;> simp
  · intro h0 h1
    unfold INT64_MIN at h0
    unfold INT64_MAX at h1
    constructor
    · apply wrap64_of_range <;> simp only [spec_seek_min, INT64_MIN, INT64_MAX] <;>
        split_ifs <;> omega
    · apply wrap64_of_range <;> simp only [spec_seek_max, INT64_MIN, INT64_MAX] <;>
        split_ifs <;> omega

theorem cmd_seek_calls_demuxer_witness :
    (∃ rest, (cmd_seek 0 seek_latched).2.trace =
        seek_latched.trace ++
          Call.avformat_seek_file
            (wrap64 (spec_seek_min seek_latched.player.seek_pos seek_latched.player.seek_rel))
            seek_latched.player.seek_pos
            (wrap64 (spec_seek_max seek_latched.player.seek_pos seek_latched.player.seek_rel))
            seek_latched.player.seek_flags
          :: rest
        ∧ ∀ lo ts hi fl, Call.avformat_seek_file lo ts hi fl ∉ rest)
    ∧ (INT64_MIN ≤ seek_latched.player.seek_pos - seek_latched.player.seek_rel - 2
      ∧ seek_latched.player.seek_pos - seek_latched.player.seek_rel + 2 ≤ INT64_MAX
      ∧ wrap64 (spec_seek_min seek_latched.player.seek_pos seek_latched.player.seek_rel)
          = spec_seek_min seek_latched.player.seek_pos seek_latched.player.seek_rel
      ∧ wrap64 (spec_seek_max seek_latched.player.seek_pos seek_latched.player.seek_rel)
          = spec_seek_max seek_latched.player.seek_pos seek_latched.player.seek_rel) :=
  ⟨(cmd_seek_calls_demuxer 0 seek_latched).1, by decide, by decide,
   (cmd_seek_calls_demuxer 0 seek_latched).2 (by decide) (by decide)⟩

/-- C18: for every execution of `cmd_seek` the pending-seek flag is cleared and nothing
else in the player changes; with the abort flag set it returns −1 and sends no
notification; otherwise, when the demuxer seek succeeded and a listener is registered, it
sends exactly one `EVENT_SEEK_COMPLETE` notification and returns the non-negative result of
the demuxer; and when the demuxer seek failed it sends no notification and returns the
negative error. -/
theorem cmd_seek_outcomes (seek_ret : Int) (m : Machine) :
    (cmd_seek seek_ret m).2.player = { m.player with seek_req := 0 }
    ∧ (m.player.abort_call ≠ 0 →
        (cmd_seek seek_ret m).1 = -1
        ∧ notifications (cmd_seek seek_ret m).2.trace = notifications m.trace)
    ∧ (m.player.abort_call = 0 → 0 ≤ seek_ret → m.player.callbacks.on_event = true →
        (cmd_seek seek_ret m).1 = seek_ret
        ∧ notifications (cmd_seek seek_ret m).2.trace =
            notifications m.trace ++ [Call.on_event EVENT_SEEK_COMPLETE 0 0])
    ∧ (m.player.abort_call = 0 → seek_ret < 0 →
        (cmd_seek seek_ret m).1 = seek_ret
        ∧ notifications (cmd_seek seek_ret m).2.trace = notifications m.trace) := by
  obtain ⟨hp, -, -, ht, hr⟩ := cmd_seek_eq seek_ret m
  refine ⟨hp, ?_, ?_, ?_⟩
  · intro ha
    rw [hr, ht, notifications_append]
    simp [ha, notifications]
  · intro ha h0 hl
    rw [hr, ht, notifications_append]
    simp [ha, h0, hl, notifications]
  · intro ha h0
    have : ¬ (0 ≤ seek_ret) := by omega
    rw [hr, ht, notifications_append]
    simp [ha, this, notifications]

theorem cmd_seek_outcomes_witness :
    (cmd_seek 0 seek_latched).2.player = { seek_latched.player with seek_req := 0 }
    ∧ (({ seek_latched with player := { seek_latched.player with abort_call := 1 } } :
          Machine).player.abort_call ≠ 0
      ∧ (cmd_seek 0 { seek_latched with
            player := { seek_latched.player with abort_call := 1 } }).1 = -1
      ∧ notifications (cmd_seek 0 { seek_latched with
            player := { seek_latched.player with abort_call := 1 } }).2.trace
          = notifications seek_latched.trace)
    ∧ (seek_latched.player.abort_call = 0 ∧ (0 : Int) ≤ 0
      ∧ seek_latched.player.callbacks.on_event = true
      ∧ (cmd_seek 0 seek_latched).1 = 0
      ∧ notifications (cmd_seek 0 seek_latched).2.trace =
          notifications seek_latched.trace ++ [Call.on_event EVENT_SEEK_COMPLETE 0 0])
    ∧ (seek_latched.player.abort_call = 0 ∧ (-5 : Int) < 0
      ∧ (cmd_seek (-5) seek_latched).1 = -5
      ∧ notifications (cmd_seek (-5) seek_latched).2.trace = notifications seek_latched.trace) :=
  ⟨(cmd_seek_outcomes 0 seek_latched).1,
   ⟨by decide, (cmd_seek_outcomes 0 { seek_latched with
      player := { seek_latched.player with abort_call := 1 } }).2.1 (by decide)⟩,
   ⟨by decide, by decide, by decide,
    (cmd_seek_outcomes 0 seek_latched).2.2.1 (by decide) (by decide) (by decide)⟩,
   ⟨by decide, by decide, (cmd_seek_outcomes (-5) seek_latched).2.2.2 (by decide) (by decide)⟩⟩

/-! ## Seek completion and the clock (C11) -/

/-- C11 (as stated, refuted): the started player has an open stream and no pending seek,
and its clock is at 0; the absolute request `ap_seek(player, 5000000, 0)` latches the
target 5000000 (5 seconds), and the dispatcher turn that handles `CMD_SEEK`, with the
demuxer seek succeeding and no abort, sends exactly one `EVENT_SEEK_COMPLETE`; after it
the clock is still 0 and the reported position is 0 ms, not 5000 ms. -/
theorem seek_completion_keeps_clock :
    Reachable seek_serviced
    ∧ started.player.state = STATE_STARTED
    ∧ started.player.audio_st ≠ none
    ∧ started.player.seek_req = 0
    ∧ seek_latched.player.seek_pos = 5000000
    ∧ seek_serviced.trace =
        seek_latched.trace ++
          [Call.avformat_seek_file 2 5000000 INT64_MAX AVSEEK_FLAG_FRAME,
           Call.on_event EVENT_SEEK_COMPLETE 0 0, Call.avcodec_decode_audio4]
    ∧ seek_serviced.player.audio_clock = 0
    ∧ seek_serviced.player.audio_clock ≠ 5
    ∧ ap_get_position seek_serviced.player = 0 := by
  have hpos : ap_get_position seek_serviced.player = 0 := by
    unfold ap_get_position
    rw [(ap_get_audio_clock_of_buffer_zero _ ⟨by rfl, by rfl⟩).2, seek_serviced_clock]
    simp [truncate, wrap32]
  refine ⟨?_, started_state, by decide, by decide, by decide, by decide,
    seek_serviced_clock, ?_, hpos⟩
  · exact send_and_turn_reachable _ _ (Reachable.seek 5000000 0 started_reachable)
  · rw [seek_serviced_clock]; norm_num

/-- C11 (amended): for every player with an open stream, no pending seek, no abort and a
registered listener, an absolute seek request `ap_seek(player, t, 0)` latches the target
`t`, and when the dispatcher then executes the seek (`cmd_seek`) with the demuxer seek
succeeding, it returns the result of the demuxer, sends exactly one
`EVENT_SEEK_COMPLETE` notification, clears the pending flag and leaves every other field
of the player as latched; in particular the playback clock is not written: it keeps the
value it had before the request. -/
theorem seek_completion_spec (m : Machine) (t seek_ret : Int)
    (hst : m.player.audio_st ≠ none) (hq : m.player.seek_req = 0)
    (ha : m.player.abort_call = 0) (hl : m.player.callbacks.on_event = true)
    (hr : 0 ≤ seek_ret) :
    (ap_seek m.player t 0).seek_pos = t
    ∧ (ap_seek m.player t 0).seek_req = 1
    ∧ (cmd_seek seek_ret { m with player := ap_seek m.player t 0 }).1 = seek_ret
    ∧ notifications (cmd_seek seek_ret { m with player := ap_seek m.player t 0 }).2.trace
        = notifications m.trace ++ [Call.on_event EVENT_SEEK_COMPLETE 0 0]
    ∧ (cmd_seek seek_ret { m with player := ap_seek m.player t 0 }).2.player
        = { m.player with
            seek_pos := t, seek_rel := t, seek_flags := AVSEEK_FLAG_FRAME, seek_req := 0 }
    ∧ (cmd_seek seek_ret { m with player := ap_seek m.player t 0 }).2.player.audio_clock
        = m.player.audio_clock := by
  have hs := ap_seek_absolute m.player t hst hq
  obtain ⟨hp, -, -, ht, hret⟩ := cmd_seek_eq seek_ret { m with player := ap_seek m.player t 0 }
  refine ⟨by rw [hs], by rw [hs], ?_, ?_, ?_, ?_⟩
  · rw [hret, hs]; simp [ha]
  · rw [ht, notifications_append, hs]
    simp [ha, hr, hl, notifications]
  · rw [hp, hs]
  · rw [hp, hs]

theorem seek_completion_spec_witness :
    started.player.audio_st ≠ none ∧ started.player.seek_req = 0
    ∧ started.player.abort_call = 0 ∧ started.player.callbacks.on_event = true
    ∧ (0 : Int) ≤ 0
    ∧ (ap_seek started.player 5000000 0).seek_pos = 5000000
    ∧ (ap_seek started.player 5000000 0).seek_req = 1
    ∧ (cmd_seek 0 { started with player := ap_seek started.player 5000000 0 }).1 = 0
    ∧ notifications
        (cmd_seek 0 { started with player := ap_seek started.player 5000000 0 }).2.trace
        = notifications started.trace ++ [Call.on_event EVENT_SEEK_COMPLETE 0 0]
    ∧ (cmd_seek 0 { started with player := ap_seek started.player 5000000 0 }).2.player
        = { started.player with
            seek_pos := 5000000, seek_rel := 5000000, seek_flags := AVSEEK_FLAG_FRAME,
            seek_req := 0 }
    ∧ (cmd_seek 0 { started with player := ap_seek started.player 5000000 0 }).2.player.audio_clock
        = started.player.audio_clock :=
  ⟨by decide, by decide, by decide, by decide, by decide,
   seek_completion_spec started 5000000 0 (by decide) (by decide) (by decide) (by decide)
    (by decide)⟩

/-! ## The seek window (C20) -/

theorem wrap64_range (x : Int) : INT64_MIN ≤ wrap64 x ∧ wrap64 x ≤ INT64_MAX := by
  unfold wrap64 INT64_MIN INT64_MAX
  constructor <;> omega

theorem ap_seek_latched (p : player_t) (incr relative : Int) (hst : p.audio_st ≠ none)
    (hq : p.seek_req = 0) :
    ap_seek p incr relative =
      { p with
        seek_pos :=
          if relative ≠ 0 then
            wrap64 (wrap64 (truncate (ap_get_audio_clock p * (AV_TIME_BASE : ℚ))) + incr)
          else incr
        seek_rel := incr
        seek_flags := AVSEEK_FLAG_FRAME
        seek_req := 1 } := by
  have hn : p.audio_st.isNone = false := by
    cases hp : p.audio_st with
    | none => exact absurd hp hst
    | some _ => rfl
  unfold ap_seek stream_seek
  simp [hn, hq]

/-- C20 (as stated, refuted): the absolute seek request `ap_seek(player, 1, 0)` on the
started player latches target 1 and offset 1, and `cmd_seek` passes the window
`[2, INT64_MAX]` to the demuxer, which does not contain the target 1. -/
theorem seek_window_misses_target :
    Reachable { started with player := ap_seek started.player 1 0 }
    ∧ (ap_seek started.player 1 0).seek_pos = 1
    ∧ (cmd_seek 0 { started with player := ap_seek started.player 1 0 }).2.trace =
        started.trace ++
          [Call.avformat_seek_file 2 1 INT64_MAX AVSEEK_FLAG_FRAME,
           Call.on_event EVENT_SEEK_COMPLETE 0 0]
    ∧ ¬ ((2 : Int) ≤ 1) :=
  ⟨Reachable.seek 1 0 started_reachable, by decide, by decide, by decide⟩

/-- C20 (amended): for a seek request latched by `ap_seek` with a 64-bit increment on a
player with an open stream and no pending seek, `cmd_seek` passes to the demuxer the
latched target and the window `[seek_min, seek_max]` of the specification computed from the
target and the increment; for an absolute request the window contains the target exactly
when the increment is 0 or at least 2 in absolute value; for a relative request whose
target `clock position + increment` does not overflow, the window contains the target
whenever the increment is 0 or at least 2 in absolute value. -/
theorem seek_window_spec (m : Machine) (incr relative seek_ret : Int)
    (hst : m.player.audio_st ≠ none) (hq : m.player.seek_req = 0)
    (h0 : INT64_MIN ≤ incr) (h1 : incr ≤ INT64_MAX) :
    (∃ rest,
      (cmd_seek seek_ret { m with player := ap_seek m.player incr relative }).2.trace =
        m.trace ++ Call.avformat_seek_file
          (wrap64 (spec_seek_min (ap_seek m.player incr relative).seek_pos incr))
          (ap_seek m.player incr relative).seek_pos
          (wrap64 (spec_seek_max (ap_seek m.player incr relative).seek_pos incr))
          AVSEEK_FLAG_FRAME :: rest)
    ∧ (relative = 0 →
        (ap_seek m.player incr relative).seek_pos = incr
        ∧ ((wrap64 (spec_seek_min incr incr) ≤ incr ∧ incr ≤ wrap64 (spec_seek_max incr incr))
            ↔ (incr = 0 ∨ 2 ≤ incr ∨ incr ≤ -2)))
    ∧ (relative ≠ 0 →
        INT64_MIN ≤ wrap64 (truncate (ap_get_audio_clock m.player * (AV_TIME_BASE : ℚ))) + incr →
        wrap64 (truncate (ap_get_audio_clock m.player * (AV_TIME_BASE : ℚ))) + incr ≤ INT64_MAX →
        (incr = 0 ∨ 2 ≤ incr ∨ incr ≤ -2) →
        wrap64 (spec_seek_min (ap_seek m.player incr relative).seek_pos incr)
          ≤ (ap_seek m.player incr relative).seek_pos
        ∧ (ap_seek m.player incr relative).seek_pos
          ≤ wrap64 (spec_seek_max (ap_seek m.player incr relative).seek_pos incr)) := by
  obtain ⟨-, -, -, ht, -⟩ :=
    cmd_seek_eq seek_ret { m with player := ap_seek m.player incr relative }
  have hl := ap_seek_latched m.player incr relative hst hq
  have hrel : (ap_seek m.player incr relative).seek_rel = incr := by rw [hl]
  have hfl : (ap_seek m.player incr relative).seek_flags = AVSEEK_FLAG_FRAME := by rw [hl]
  have hpos : (ap_seek m.player incr relative).seek_pos =
      if relative ≠ 0 then
        wrap64 (wrap64 (truncate (ap_get_audio_clock m.player * (AV_TIME_BASE : ℚ))) + incr)
      else incr := by rw [hl]
  have hc := wrap64_range (truncate (ap_get_audio_clock m.player * (AV_TIME_BASE : ℚ)))
  generalize wrap64 (truncate (ap_get_audio_clock m.player * (AV_TIME_BASE : ℚ))) = c
    at hpos hc ⊢
  dsimp only at ht
  rw [hrel, hfl] at ht
  refine ⟨⟨_, ht⟩, ?_, ?_⟩
  · intro hr0
    rw [if_neg (by simp [hr0])] at hpos
    refine ⟨hpos, ?_⟩
    simp only [spec_seek_min, spec_seek_max, wrap64, INT64_MIN, INT64_MAX] at h0 h1 ⊢
    split_ifs <;> omega
  · intro hr0 hlo hhi hcond
    rw [if_pos hr0] at hpos
    rw [hpos]
    simp only [spec_seek_min, spec_seek_max, wrap64, INT64_MIN, INT64_MAX] at h0 h1 hc hlo hhi ⊢
    split_ifs <;> omega

theorem started_clock_position :
    wrap64 (truncate (ap_get_audio_clock started.player * (AV_TIME_BASE : ℚ))) = 0 := by
  rw [(ap_get_audio_clock_of_buffer_zero _ ⟨by rfl, by rfl⟩).2, started_clock]
  simp [truncate, wrap64]

theorem seek_window_spec_witness :
    (started.player.audio_st ≠ none ∧ started.player.seek_req = 0
      ∧ INT64_MIN ≤ (5000000 : Int) ∧ (5000000 : Int) ≤ INT64_MAX)
    ∧ ((ap_seek started.player 5000000 0).seek_pos = 5000000
      ∧ ((wrap64 (spec_seek_min 5000000 5000000) ≤ 5000000
            ∧ 5000000 ≤ wrap64 (spec_seek_max 5000000 5000000))
          ↔ ((5000000 : Int) = 0 ∨ 2 ≤ (5000000 : Int) ∨ (5000000 : Int) ≤ -2)))
    ∧ (wrap64 (spec_seek_min (ap_seek started.player 5000000 1).seek_pos 5000000)
          ≤ (ap_seek started.player 5000000 1).seek_pos
      ∧ (ap_seek started.player 5000000 1).seek_pos
          ≤ wrap64 (spec_seek_max (ap_seek started.player 5000000 1).seek_pos 5000000)) :=
  have ha : started.player.audio_st ≠ none := by decide
  have hq : started.player.seek_req = 0 := by decide
  ⟨⟨ha, hq, by decide, by decide⟩,
   (seek_window_spec started 5000000 0 0 ha hq (by decide) (by decide)).2.1 rfl,
   (seek_window_spec started 5000000 1 0 ha hq (by decide) (by decide)).2.2 (by decide)
    (by rw [started_clock_position]; decide) (by rw [started_clock_position]; decide)
    (Or.inr (Or.inl (by decide)))⟩

/-! ## The decode loop (C15, C16) -/

theorem audio_decode_frame_resampler_frame (env : DecodeEnv) (m : Machine) (a c : Bool) :
    (audio_decode_frame_resampler env m a c).2.trace = m.trace
    ∧ (audio_decode_frame_resampler env m a c).2.pipe = m.pipe
    ∧ (audio_decode_frame_resampler env m a c).2.player.state = m.player.state
    ∧ (audio_decode_frame_resampler env m a c).2.player.abort_call = m.player.abort_call := by
  unfold audio_decode_frame_resampler
  dsimp only
  split_ifs <;> exact ⟨rfl, rfl, rfl, rfl⟩

theorem audio_decode_frame_play_eq (m : Machine) (d : Int) :
    (audio_decode_frame_play m d).1 = some (if m.player.abort_call ≠ 0 then FAILURE else d)
    ∧ (audio_decode_frame_play m d).2.trace =
        m.trace ++ (if m.player.abort_call ≠ 0 then [] else [Call.on_play d])
    ∧ (audio_decode_frame_play m d).2.player.state = m.player.state := by
  unfold audio_decode_frame_play
  dsimp only
  split_ifs <;> simp

theorem audio_decode_frame_body_state (env : DecodeEnv) (m : Machine) :
    (audio_decode_frame_body env m).2.player.state = m.player.state := by
  unfold audio_decode_frame_body
  dsimp only
  split_ifs <;>
    simp only [(audio_decode_frame_play_eq _ _).2.2,
      (audio_decode_frame_resampler_frame _ _ _ _).2.2.1]

theorem audio_decode_frame_spin (fuel : Nat) :
    ∀ (envs : Nat → DecodeEnv) (m : Machine), m.statics.pkt.size ≤ 0 →
      m.player.state ≠ STATE_PAUSED → audio_decode_frame fuel envs m = none := by
  induction fuel with
  | zero => intro envs m _ _; rfl
  | succ n ih =>
    intro envs m hsz hst
    unfold audio_decode_frame
    have h0 : ¬ m.statics.pkt.size > 0 := by omega
    simp only [h0, if_false, hst]
    exact ih _ _ (le_refl (0 : Int)) (by exact hst)

theorem audio_decode_frame_step (fuel : Nat) (envs : Nat → DecodeEnv) (m : Machine)
    (hsz : m.statics.pkt.size > 0) :
    audio_decode_frame (fuel + 1) envs m =
      match (audio_decode_frame_body (envs 0) m).1 with
      | some ret => some (ret, (audio_decode_frame_body (envs 0) m).2)
      | none =>
        if m.player.state = STATE_PAUSED then
          some (-1, { (audio_decode_frame_body (envs 0) m).2 with
            statics := { (audio_decode_frame_body (envs 0) m).2.statics with
              pkt := AVPacket.zero } })
        else none := by
  have hst := audio_decode_frame_body_state (envs 0) m
  rw [audio_decode_frame]
  simp only [hsz, if_true]
  cases hb : (audio_decode_frame_body (envs 0) m).1 with
  | some ret => rfl
  | none =>
    dsimp only
    rw [hst]
    split_ifs with hp
    · rfl
    · exact audio_decode_frame_spin _ _ _ (le_refl (0 : Int)) (by exact hp)
    · exact audio_decode_frame_spin _ _ _ (le_refl (0 : Int)) (by exact hp)

theorem audio_decode_frame_body_breaks (env : DecodeEnv) (m : Machine)
    (hc : frame_needs_conversion env m) (hf : resampler_failure env m) :
    (audio_decode_frame_body env m).1 = none := by
  obtain ⟨hfr, ha, hg, hn⟩ := hc
  have hfr' : (!m.statics.frame && !env.frame_alloc) = false := by
    rcases hfr with h | h <;> simp [h]
  have hn' : decide (env.format ≠ m.player.sdl_sample_fmt
      ∨ env.channel_layout ≠ m.player.sdl_channel_layout
      ∨ env.sample_rate ≠ m.player.sdl_sample_rate) = true := by
    simpa [needs_conversion] using hn
  unfold audio_decode_frame_body
  simp only [hfr', Bool.false_eq_true, if_false, ha, ne_eq, not_true_eq_false, hg, hn']
  unfold audio_decode_frame_resampler
  have hr : resample_changed env m ↔ (env.format ≠ m.player.resample_sample_fmt
      ∨ env.channel_layout ≠ m.player.resample_channel_layout
      ∨ env.sample_rate ≠ m.player.resample_sample_rate) := Iff.rfl
  rcases hf with ⟨h1, h2⟩ | ⟨h1, h2, h3⟩ | ⟨h1, h2, h3, h4⟩
  · simp [h1, h2]
  · cases havr : m.statics.avr with
    | false => simp [havr, h2 havr, h3]
    | true =>
      have hch : resample_changed env m := by
        rcases h1 with h | h
        · rw [havr] at h; cases h
        · exact h
      rw [hr] at hch
      simp [havr, hch, h3]
  · cases havr : m.statics.avr with
    | false =>
      have hop : ¬ env.avresample_open < 0 := by
        have := h2 (Or.inl havr); omega
      simp [havr, h1 havr, hop, h3, h4]
    | true =>
      by_cases hch : resample_changed env m
      · have hop : ¬ env.avresample_open < 0 := by
          have := h2 (Or.inr hch); omega
        rw [hr] at hch
        simp [havr, hch, hop, h3, h4]
      · rw [hr] at hch
        simp [havr, hch, h3, h4]

/-- C15 (the code at the failing input): when the decoder produces a frame that needs
conversion and the resampler allocation, its configuration or the conversion fails, the
body of the `while` loop is left by `break`; after that, in every state other than
`PAUSED` (the dispatcher decodes only in `STARTED`), `audio_decode_frame` never returns:
whatever the fuel, the model yields no result. Only in `STATE_PAUSED` does the call
return, with −1. -/
theorem resampler_failure_never_returns (fuel : Nat) (envs : Nat → DecodeEnv) (m : Machine)
    (hsz : m.statics.pkt.size > 0) (hc : frame_needs_conversion (envs 0) m)
    (hf : resampler_failure (envs 0) m) :
    (m.player.state ≠ STATE_PAUSED → audio_decode_frame fuel envs m = none)
    ∧ (m.player.state = STATE_PAUSED →
        ∃ m', audio_decode_frame (fuel + 1) envs m = some (-1, m')) := by
  have hb := audio_decode_frame_body_breaks (envs 0) m hc hf
  constructor
  · intro hp
    cases fuel with
    | zero => rfl
    | succ n =>
      rw [audio_decode_frame_step n envs m hsz, hb]
      simp [hp]
  · intro hp
    rw [audio_decode_frame_step fuel envs m hsz, hb]
    simp [hp]

theorem resampler_failure_never_returns_witness :
    started_with_packet.statics.pkt.size > 0
    ∧ frame_needs_conversion decode_alloc_fails started_with_packet
    ∧ resampler_failure decode_alloc_fails started_with_packet
    ∧ started_with_packet.player.state ≠ STATE_PAUSED
    ∧ audio_decode_frame 1000 (fun _ => decode_alloc_fails) started_with_packet = none :=
  have h1 : started_with_packet.statics.pkt.size > 0 := by decide
  have h2 : frame_needs_conversion decode_alloc_fails started_with_packet := by
    unfold frame_needs_conversion; decide
  have h3 : resampler_failure decode_alloc_fails started_with_packet :=
    Or.inl ⟨by decide, by decide⟩
  have h4 : started_with_packet.player.state ≠ STATE_PAUSED := by decide
  ⟨h1, h2, h3, h4,
   (resampler_failure_never_returns 1000 (fun _ => decode_alloc_fails) started_with_packet
     h1 h2 h3).1 h4⟩

theorem audio_decode_frame_empty_packet (fuel : Nat) (envs : Nat → DecodeEnv) (m : Machine)
    (r : Int × Machine) (hsz : m.statics.pkt.size ≤ 0)
    (h : audio_decode_frame fuel envs m = some r) :
    r.1 = -1 ∧ r.2.trace = m.trace := by
  by_cases hp : m.player.state = STATE_PAUSED
  · cases fuel with
    | zero => simp [audio_decode_frame] at h
    | succ n =>
      unfold audio_decode_frame at h
      have h0 : ¬ m.statics.pkt.size > 0 := by omega
      simp only [h0, if_false, hp, if_true] at h
      cases h
      exact ⟨rfl, rfl⟩
  · rw [audio_decode_frame_spin fuel envs m hsz hp] at h
    cases h


theorem cmd_stop_timeout (m : Machine) : timeout_matches_state (cmd_stop m).2 := by
  unfold cmd_stop timeout_matches_state
  simp only [change_state_eq]
  cases hs : m.player.state <;> simp [change_state_ok, hs]

theorem cmd_pause_timeout (m : Machine) (h : timeout_matches_state m) :
    timeout_matches_state (cmd_pause m).2 := by
  unfold timeout_matches_state at *
  unfold cmd_pause
  simp only [change_state_eq]
  cases hs : m.player.state <;> simp_all [change_state_ok]

theorem cmd_set_datasource_timeout (m : Machine) (h : timeout_matches_state m) :
    timeout_matches_state (cmd_set_datasource m).2 := by
  unfold timeout_matches_state at *
  unfold cmd_set_datasource
  simp only [change_state_eq]
  cases hs : m.player.state <;> simp_all [change_state_ok]

theorem cmd_reset_timeout (m : Machine) (h : timeout_matches_state m) :
    timeout_matches_state (cmd_reset m).2 := by
  unfold timeout_matches_state at *
  unfold cmd_reset
  simp only [change_state_eq]
  cases hs : m.player.state <;> simp_all [change_state_ok]

theorem cmd_seek_timeout (r : Int) (m : Machine) (h : timeout_matches_state m) :
    timeout_matches_state (cmd_seek r m).2 := by
  obtain ⟨hp, hst, -, -, -⟩ := cmd_seek_eq r m
  unfold timeout_matches_state at *
  rw [hp, hst]
  exact h

theorem stream_component_open_frame (env : PrepareEnv) (ic : AVFormatContext) (m : Machine)
    (i : Int) :
    (stream_component_open env ic m i).2.player.state = m.player.state
    ∧ (stream_component_open env ic m i).2.player.abort_call = m.player.abort_call
    ∧ (stream_component_open env ic m i).2.player.callbacks = m.player.callbacks
    ∧ (stream_component_open env ic m i).2.statics.epoll_timeout = m.statics.epoll_timeout
    ∧ (stream_component_open env ic m i).2.statics.avr = m.statics.avr
    ∧ (stream_component_open env ic m i).2.statics.eof = m.statics.eof := by
  unfold stream_component_open
  dsimp only
  split_ifs <;> exact ⟨rfl, rfl, rfl, rfl, rfl, rfl⟩

theorem cmd_prepare_rejected (env : PrepareEnv) (m : Machine)
    (h : change_state_ok m.player.state STATE_PREPARING = false) :
    cmd_prepare env m = (FAILURE, m) := by
  unfold cmd_prepare
  rw [change_state_eq]
  simp [h, SUCCESS]

theorem cmd_prepare_accepted (env : PrepareEnv) (m : Machine)
    (h : change_state_ok m.player.state STATE_PREPARING = true) :
    (m.player.state = STATE_INITIALIZED ∨ m.player.state = STATE_STOPPED)
    ∧ ((cmd_prepare env m).2.player.state = STATE_PREPARING
      ∨ (cmd_prepare env m).2.player.state = STATE_PREPARED)
    ∧ (cmd_prepare env m).2.statics.epoll_timeout = m.statics.epoll_timeout
    ∧ (cmd_prepare env m).2.statics.avr = m.statics.avr
    ∧ (cmd_prepare env m).2.statics.eof = m.statics.eof
    ∧ (cmd_prepare env m).2.player.abort_call = m.player.abort_call := by
  have hst : m.player.state = STATE_INITIALIZED ∨ m.player.state = STATE_STOPPED := by
    revert h
    cases m.player.state <;> simp [change_state_ok]
  refine ⟨hst, ?_⟩
  have key : ∀ r, cmd_prepare env m = r →
      ((r.2.player.state = STATE_PREPARING ∨ r.2.player.state = STATE_PREPARED)
      ∧ r.2.statics.epoll_timeout = m.statics.epoll_timeout
      ∧ r.2.statics.avr = m.statics.avr
      ∧ r.2.statics.eof = m.statics.eof
      ∧ r.2.player.abort_call = m.player.abort_call) := by
    intro r hr
    unfold cmd_prepare at hr
    rw [change_state_eq, if_pos h] at hr
    dsimp only at hr
    simp only [change_state_eq] at hr
    split_ifs at hr
    all_goals subst hr
    all_goals
      first
      | exact ⟨Or.inl rfl, rfl, rfl, rfl, rfl⟩
      | exact ⟨Or.inr rfl, rfl, rfl, rfl, rfl⟩
      | (simp_all [change_state_ok, (stream_component_open_frame _ _ _ _).1,
          (stream_component_open_frame _ _ _ _).2.1,
          (stream_component_open_frame _ _ _ _).2.2.2.1,
          (stream_component_open_frame _ _ _ _).2.2.2.2.1,
          (stream_component_open_frame _ _ _ _).2.2.2.2.2])
  exact key _ rfl


theorem cmd_prepare_timeout (env : PrepareEnv) (m : Machine) (h : timeout_matches_state m) :
    timeout_matches_state (cmd_prepare env m).2 := by
  cases hok : change_state_ok m.player.state STATE_PREPARING with
  | false => rw [cmd_prepare_rejected env m hok]; exact h
  | true =>
    obtain ⟨hs, hr, ht, -, -, -⟩ := cmd_prepare_accepted env m hok
    unfold timeout_matches_state at *
    rw [ht]
    have hns : m.player.state ≠ STATE_STARTED := by
      rcases hs with hs | hs <;> rw [hs] <;> decide
    have hnr : (cmd_prepare env m).2.player.state ≠ STATE_STARTED := by
      rcases hr with hr | hr <;> rw [hr] <;> decide
    exact ⟨fun hh => absurd hh hnr, fun _ => h.2 hns⟩

theorem cmd_start_timeout (env : PrepareEnv) (m : Machine) (h : timeout_matches_state m) :
    timeout_matches_state (cmd_start env m).2 := by
  by_cases hst : m.player.state = STATE_STOPPED
  · have hs : cmd_start env m = cmd_prepare env (cmd_reset m).2 := by
      unfold cmd_start; simp [hst]
    rw [hs]
    exact cmd_prepare_timeout _ _ (cmd_reset_timeout _ h)
  · unfold timeout_matches_state at *
    unfold cmd_start
    simp only [change_state_eq]
    cases hs : m.player.state <;> simp_all [change_state_ok, SUCCESS]

theorem dispatch_timeout (env : IterEnv) (m : Machine) (cmd : audio_cmd_t)
    (h : timeout_matches_state m) : timeout_matches_state (dispatch env m cmd).2 := by
  cases cmd <;> unfold dispatch <;> dsimp only
  · exact cmd_set_datasource_timeout _ h
  · exact cmd_prepare_timeout _ _ (by exact h)
  · exact cmd_start_timeout _ _ h
  · exact cmd_pause_timeout _ h
  · exact cmd_stop_timeout _
  · exact cmd_seek_timeout _ _ h
  · exact cmd_reset_timeout _ h
  · exact h

theorem audio_decode_frame_body_frame (env : DecodeEnv) (m : Machine) :
    ∀ r, audio_decode_frame_body env m = r →
      r.2.player.state = m.player.state
      ∧ r.2.player.abort_call = m.player.abort_call
      ∧ r.2.player.audio_stream = m.player.audio_stream
      ∧ r.2.statics.epoll_timeout = m.statics.epoll_timeout
      ∧ r.2.statics.eof = m.statics.eof
      ∧ r.2.pipe = m.pipe := by
  intro r hr
  have hres : ∀ (m1 : Machine) (a c : Bool),
      (audio_decode_frame_resampler env m1 a c).2.player.state = m1.player.state
      ∧ (audio_decode_frame_resampler env m1 a c).2.player.abort_call = m1.player.abort_call
      ∧ (audio_decode_frame_resampler env m1 a c).2.player.audio_stream = m1.player.audio_stream
      ∧ (audio_decode_frame_resampler env m1 a c).2.statics.epoll_timeout
          = m1.statics.epoll_timeout
      ∧ (audio_decode_frame_resampler env m1 a c).2.statics.eof = m1.statics.eof
      ∧ (audio_decode_frame_resampler env m1 a c).2.pipe = m1.pipe := by
    intro m1 a c
    unfold audio_decode_frame_resampler
    dsimp only
    split_ifs <;> exact ⟨rfl, rfl, rfl, rfl, rfl, rfl⟩
  have hplay : ∀ (m1 : Machine) (d : Int),
      (audio_decode_frame_play m1 d).2.player.state = m1.player.state
      ∧ (audio_decode_frame_play m1 d).2.player.abort_call = m1.player.abort_call
      ∧ (audio_decode_frame_play m1 d).2.player.audio_stream = m1.player.audio_stream
      ∧ (audio_decode_frame_play m1 d).2.statics.epoll_timeout = m1.statics.epoll_timeout
      ∧ (audio_decode_frame_play m1 d).2.statics.eof = m1.statics.eof
      ∧ (audio_decode_frame_play m1 d).2.pipe = m1.pipe := by
    intro m1 d
    unfold audio_decode_frame_play
    dsimp only
    split_ifs <;> exact ⟨rfl, rfl, rfl, rfl, rfl, rfl⟩
  unfold audio_decode_frame_body at hr
  dsimp only at hr
  split_ifs at hr
  all_goals subst hr
  all_goals
    first
    | exact ⟨rfl, rfl, rfl, rfl, rfl, rfl⟩
    | exact hres _ _ _
    | exact (by
        obtain ⟨a1, a2, a3, a4, a5, a6⟩ := hplay _ _
        obtain ⟨b1, b2, b3, b4, b5, b6⟩ := hres _ _ _
        exact ⟨a1.trans b1, a2.trans b2, a3.trans b3, a4.trans b4, a5.trans b5, a6.trans b6⟩)

theorem audio_decode_frame_frame (fuel : Nat) (envs : Nat → DecodeEnv) (m : Machine)
    (r : Int × Machine) (h : audio_decode_frame fuel envs m = some r) :
    r.2.player.state = m.player.state
    ∧ r.2.player.abort_call = m.player.abort_call
    ∧ r.2.player.audio_stream = m.player.audio_stream
    ∧ r.2.statics.epoll_timeout = m.statics.epoll_timeout
    ∧ r.2.statics.eof = m.statics.eof
    ∧ r.2.pipe = m.pipe := by
  by_cases hsz : m.statics.pkt.size > 0
  · cases fuel with
    | zero => simp [audio_decode_frame] at h
    | succ n =>
      rw [audio_decode_frame_step n envs m hsz] at h
      have hb := audio_decode_frame_body_frame (envs 0) m _ rfl
      cases hone : (audio_decode_frame_body (envs 0) m).1 with
      | some ret =>
        rw [hone] at h
        dsimp only at h
        cases h
        exact hb
      | none =>
        rw [hone] at h
        dsimp only at h
        split_ifs at h
        cases h
        exact hb
  · by_cases hp : m.player.state = STATE_PAUSED
    · cases fuel with
      | zero => simp [audio_decode_frame] at h
      | succ n =>
        unfold audio_decode_frame at h
        simp only [hsz, if_false, hp, if_true] at h
        cases h
        exact ⟨rfl, rfl, rfl, rfl, rfl, rfl⟩
    · rw [audio_decode_frame_spin fuel envs m (by omega) hp] at h
      cases h

theorem read_and_decode_timeout (env : IterEnv) (m m' : Machine)
    (h : timeout_matches_state m) (hr : read_and_decode env m = some m') :
    timeout_matches_state m' := by
  unfold read_and_decode at hr
  dsimp only at hr
  simp only [change_state_eq] at hr
  split_ifs at hr
  all_goals
    first
    | (cases hr; exact h)
    | (cases hr; unfold timeout_matches_state at *
       simp_all [(ap_seek_state _ _ _).1, change_state_ok])
    | (simp only [Option.map_eq_some'] at hr
       obtain ⟨a, ha, rfl⟩ := hr
       obtain ⟨b, hb, rfl⟩ := ha
       obtain ⟨h1, -, -, h4, -, -⟩ := audio_decode_frame_frame _ _ _ _ hb
       unfold timeout_matches_state at *
       dsimp only at h1 h4 ⊢
       rw [h1, h4]
       exact h)

theorem player_thread_iteration_timeout (env : IterEnv) (m m' : Machine) (quit : Bool)
    (h : timeout_matches_state m) (hne : env.epoll_fails = false)
    (hr : player_thread_iteration env m = some (quit, m')) :
    timeout_matches_state m' := by
  have key : ∀ (q : Bool) (m1 : Machine), timeout_matches_state m1 →
      Option.map (fun x => (q, x)) (read_and_decode env m1) = some (quit, m') →
      timeout_matches_state m' := by
    intro q m1 h1 hq
    simp only [Option.map_eq_some'] at hq
    obtain ⟨a, ha, hq⟩ := hq
    cases hq
    exact read_and_decode_timeout _ _ _ h1 ha
  unfold player_thread_iteration at hr
  simp only [hne, Bool.false_eq_true, if_false] at hr
  split at hr
  · split_ifs at hr
    exact key _ _ h hr
  · exact key _ _ (dispatch_timeout _ _ _ (by exact h)) hr

theorem at_wait_timeout {m : Machine} (h : AtWait m) : timeout_matches_state m := by
  induction h with
  | create cb =>
    unfold player_thread_start timeout_matches_state
    dsimp only
    split_ifs <;> exact ⟨fun hh => (by cases hh), fun _ => rfl⟩
  | send_cmd ok cmd _ ih =>
    unfold ap_send_cmd; split_ifs <;> exact ih
  | set_datasource ok url _ ih =>
    unfold ap_set_datasource ap_send_cmd; dsimp only; split_ifs <;> exact ih
  | seek incr relative _ ih =>
    unfold timeout_matches_state at *
    dsimp only
    rw [(ap_seek_state _ _ _).1]
    exact ih
  | set_looping looping _ ih => exact ih
  | iteration env _ hi ih =>
    cases hf : env.epoll_fails with
    | true =>
      unfold player_thread_iteration at hi
      simp [hf] at hi
    | false => exact player_thread_iteration_timeout _ _ _ _ ih hf hi

/-- C19: starting from a fresh player (state `IDLE`, timeout −1), after any interleaving
of public operations and dispatcher turns with any outcomes of the external calls, each
time the dispatcher enters its readiness wait the timeout is 0 if the state is `STARTED`
and −1 if the state is anything else. -/
theorem wait_timeout_follows_state (m : Machine) (h : AtWait m) :
    (player_thread_start (ap_create all_callbacks)).player.state = STATE_IDLE
    ∧ (player_thread_start (ap_create all_callbacks)).statics.epoll_timeout = -1
    ∧ (m.player.state = STATE_STARTED → m.statics.epoll_timeout = 0)
    ∧ (m.player.state ≠ STATE_STARTED → m.statics.epoll_timeout = -1) :=
  ⟨rfl, rfl, (at_wait_timeout h).1, (at_wait_timeout h).2⟩

theorem send_and_turn_at_wait (env : IterEnv) {m : Machine} (cmd : audio_cmd_t)
    (h : AtWait m) (hf : env.epoll_fails = false) (hp : m.pipe = []) (hc : cmd ≠ CMD_EXIT) :
    AtWait (send_and_turn env m cmd) := by
  unfold send_and_turn turn
  cases hi : player_thread_iteration env (ap_send_cmd true m cmd).2 with
  | none => exact AtWait.send_cmd true cmd h
  | some r =>
    obtain ⟨q, m'⟩ := r
    have hq : q = false := by
      unfold player_thread_iteration at hi
      simp only [hf, Bool.false_eq_true, if_false, ap_send_cmd, if_true, hp,
        List.nil_append, Option.map_eq_some'] at hi
      obtain ⟨a, -, ha⟩ := hi
      cases ha
      cases cmd <;> first | rfl | exact absurd rfl hc
    subst hq
    exact AtWait.iteration env (AtWait.send_cmd true cmd h) hi

theorem started_at_wait : AtWait started := by
  have h0 : AtWait fresh := AtWait.create all_callbacks
  have h1 : AtWait initialized := by
    have hi : player_thread_iteration (sample_env (prepare_succeeds 10000000))
        (ap_set_datasource true fresh ['a']).2 = some (false, initialized) := by rfl
    exact AtWait.iteration _ (AtWait.set_datasource true ['a'] h0) hi
  have h2 : AtWait (prepared 10000000) :=
    send_and_turn_at_wait _ _ h1 rfl (by decide) (by decide)
  exact send_and_turn_at_wait _ _ h2 rfl (by decide) (by decide)

theorem wait_timeout_follows_state_witness :
    AtWait started
    ∧ started.player.state = STATE_STARTED
    ∧ started.statics.epoll_timeout = 0
    ∧ AtWait stopped_at_wait_sample
    ∧ stopped_at_wait_sample.player.state ≠ STATE_STARTED
    ∧ stopped_at_wait_sample.statics.epoll_timeout = -1 :=
  have hs : AtWait stopped_at_wait_sample :=
    send_and_turn_at_wait _ _ started_at_wait rfl (by decide) (by decide)
  have hn : stopped_at_wait_sample.player.state ≠ STATE_STARTED := by decide
  ⟨started_at_wait, started_state,
   (wait_timeout_follows_state started started_at_wait).2.2.1 started_state,
   hs, hn, (wait_timeout_follows_state stopped_at_wait_sample hs).2.2.2 hn⟩

/-! ## RESET from any state (C14) -/

theorem cmd_set_datasource_clean (m : Machine) (h : idle_is_clean m) :
    idle_is_clean (cmd_set_datasource m).2 := by
  unfold idle_is_clean at *
  unfold cmd_set_datasource
  simp only [change_state_eq]
  cases hs : m.player.state <;> simp_all [change_state_ok]

theorem cmd_reset_clean (m : Machine) (h : idle_is_clean m) :
    idle_is_clean (cmd_reset m).2 := by
  unfold idle_is_clean at *
  unfold cmd_reset
  simp only [change_state_eq]
  cases hs : m.player.state <;> simp_all [change_state_ok]

theorem cmd_pause_clean (m : Machine) (h : idle_is_clean m) :
    idle_is_clean (cmd_pause m).2 := by
  unfold idle_is_clean at *
  unfold cmd_pause
  simp only [change_state_eq]
  cases hs : m.player.state <;> simp_all [change_state_ok]

theorem cmd_stop_clean (m : Machine) (h : idle_is_clean m) :
    idle_is_clean (cmd_stop m).2 := by
  unfold idle_is_clean at *
  unfold cmd_stop
  simp only [change_state_eq]
  cases hs : m.player.state <;> simp_all [change_state_ok]

theorem cmd_seek_clean (r : Int) (m : Machine) (h : idle_is_clean m) :
    idle_is_clean (cmd_seek r m).2 := by
  obtain ⟨hp, hst, -, -, -⟩ := cmd_seek_eq r m
  unfold idle_is_clean at *
  rw [hp, hst]
  exact h

theorem cmd_prepare_clean (env : PrepareEnv) (m : Machine) (h : idle_is_clean m) :
    idle_is_clean (cmd_prepare env m).2 := by
  cases hok : change_state_ok m.player.state STATE_PREPARING with
  | false => rw [cmd_prepare_rejected env m hok]; exact h
  | true =>
    obtain ⟨-, hr, -, -, -, ha⟩ := cmd_prepare_accepted env m hok
    unfold idle_is_clean at *
    rw [ha]
    refine ⟨h.1, fun hi => ?_⟩
    rcases hr with hr | hr <;> rw [hr] at hi <;> cases hi

theorem cmd_start_clean (env : PrepareEnv) (m : Machine) (h : idle_is_clean m) :
    idle_is_clean (cmd_start env m).2 := by
  by_cases hst : m.player.state = STATE_STOPPED
  · have hs : cmd_start env m = cmd_prepare env (cmd_reset m).2 := by
      unfold cmd_start; simp [hst]
    rw [hs]
    exact cmd_prepare_clean _ _ (cmd_reset_clean _ h)
  · unfold idle_is_clean at *
    unfold cmd_start
    simp only [change_state_eq]
    cases hs : m.player.state <;> simp_all [change_state_ok, SUCCESS]

theorem dispatch_clean (env : IterEnv) (m : Machine) (cmd : audio_cmd_t)
    (h : idle_is_clean m) : idle_is_clean (dispatch env m cmd).2 := by
  cases cmd <;> unfold dispatch <;> dsimp only
  · exact cmd_set_datasource_clean _ h
  · exact cmd_prepare_clean _ _ (by exact h)
  · exact cmd_start_clean _ _ h
  · exact cmd_pause_clean _ h
  · exact cmd_stop_clean _ h
  · exact cmd_seek_clean _ _ h
  · exact cmd_reset_clean _ h
  · exact h

theorem read_and_decode_clean (env : IterEnv) (m m' : Machine)
    (h : idle_is_clean m) (hr : read_and_decode env m = some m') :
    idle_is_clean m' := by
  unfold read_and_decode at hr
  dsimp only at hr
  simp only [change_state_eq] at hr
  split_ifs at hr
  all_goals
    first
    | (cases hr; exact h)
    | (cases hr; unfold idle_is_clean at *
       simp_all [(ap_seek_state _ _ _).1, (ap_seek_state _ _ _).2.2.1,
         (ap_seek_state _ _ _).2.2.2.1, change_state_ok])
    | (simp only [Option.map_eq_some'] at hr
       obtain ⟨a, ha, rfl⟩ := hr
       obtain ⟨b, hb, rfl⟩ := ha
       obtain ⟨h1, h2, -, -, -, -⟩ := audio_decode_frame_frame _ _ _ _ hb
       unfold idle_is_clean at *
       dsimp only at h1 h2 ⊢
       rw [h1, h2]
       refine ⟨h.1, fun hi => ?_⟩
       simp_all)

theorem player_thread_iteration_clean (env : IterEnv) (m m' : Machine) (quit : Bool)
    (h : idle_is_clean m) (hr : player_thread_iteration env m = some (quit, m')) :
    idle_is_clean m' := by
  have key : ∀ (q : Bool) (m1 : Machine), idle_is_clean m1 →
      Option.map (fun x => (q, x)) (read_and_decode env m1) = some (quit, m') →
      idle_is_clean m' := by
    intro q m1 h1 hq
    simp only [Option.map_eq_some'] at hq
    obtain ⟨a, ha, hq⟩ := hq
    cases hq
    exact read_and_decode_clean _ _ _ h1 ha
  unfold player_thread_iteration at hr
  split_ifs at hr
  · cases hr; exact h
  · split at hr
    · exact key _ _ h hr
    · exact key _ _ (dispatch_clean _ _ _ (by exact h)) hr
  · split at hr
    · cases hr
    · exact key _ _ (dispatch_clean _ _ _ (by exact h)) hr

theorem reachable_idle_is_clean {m : Machine} (h : Reachable m) : idle_is_clean m := by
  induction h with
  | create cb =>
    unfold player_thread_start idle_is_clean
    dsimp only
    split_ifs <;> exact ⟨rfl, fun _ => ⟨rfl, rfl⟩⟩
  | send_cmd ok cmd _ ih =>
    unfold ap_send_cmd; split_ifs <;> exact ih
  | set_datasource ok url _ ih =>
    unfold ap_set_datasource ap_send_cmd; dsimp only; split_ifs <;> exact ih
  | seek incr relative _ ih =>
    unfold idle_is_clean at *
    dsimp only
    rw [(ap_seek_state _ _ _).1, (ap_seek_state _ _ _).2.2.1, (ap_seek_state _ _ _).2.2.2.1]
    exact ih
  | set_looping looping _ ih => exact ih
  | iteration env _ hi ih => exact player_thread_iteration_clean _ _ _ _ ih hi
  | exit _ ih =>
    unfold idle_is_clean at *
    unfold player_thread_exit
    simp only [change_state_eq]
    simp_all [change_state_ok]

/-! ## RESET and the stream behind `audio_st` (C14) -/

theorem stream_component_open_live (env : PrepareEnv) (ic : AVFormatContext) (m : Machine)
    (i : Int) :
    (stream_component_open env ic m i).2.player.audio_stream = m.player.audio_stream
    ∨ dangling_audio_st (stream_component_open env ic m i).2.player = false := by
  unfold stream_component_open
  dsimp only
  split_ifs <;> first | exact Or.inl rfl | exact Or.inr rfl

theorem cmd_prepare_live (env : PrepareEnv) (m : Machine)
    (h : change_state_ok m.player.state STATE_PREPARING = true) :
    (cmd_prepare env m).2.player.state = STATE_PREPARING
    ∨ dangling_audio_st (cmd_prepare env m).2.player = false := by
  have key : ∀ r, cmd_prepare env m = r →
      (r.2.player.state = STATE_PREPARING ∨ dangling_audio_st r.2.player = false) := by
    intro r hr
    unfold cmd_prepare at hr
    rw [change_state_eq, if_pos h] at hr
    dsimp only at hr
    simp only [change_state_eq] at hr
    split_ifs at hr
    all_goals subst hr
    all_goals try (exact Or.inl rfl)
    all_goals try (exact Or.inl (stream_component_open_frame _ _ _ _).1)
    · rename_i h1 h2
      rcases stream_component_open_live env
          { opened := true, duration := env.duration, nb_streams := env.nb_streams }
          _ env.best_stream with h3 | h3
      · exfalso
        apply h1
        rw [h3]
        show (-1 : Int) < 0
        decide
      · exact Or.inr h3
    · rename_i h1 h2
      exfalso
      apply h1
      show (-1 : Int) < 0
      decide
  exact key _ rfl

theorem cmd_prepare_stream_live (env : PrepareEnv) (m : Machine)
    (h : stream_live_outside_preparing m) :
    stream_live_outside_preparing (cmd_prepare env m).2 := by
  cases hok : change_state_ok m.player.state STATE_PREPARING with
  | false => rw [cmd_prepare_rejected env m hok]; exact h
  | true =>
    intro hd
    rcases cmd_prepare_live env m hok with h1 | h1
    · exact Or.inl h1
    · rw [h1] at hd; cases hd

theorem cmd_set_datasource_stream_live (m : Machine) (h : stream_live_outside_preparing m) :
    stream_live_outside_preparing (cmd_set_datasource m).2 := by
  unfold stream_live_outside_preparing dangling_audio_st at *
  unfold cmd_set_datasource
  simp only [change_state_eq]
  cases hs : m.player.state <;> simp_all [change_state_ok]

theorem cmd_reset_stream_live (m : Machine) (h : stream_live_outside_preparing m) :
    stream_live_outside_preparing (cmd_reset m).2 := by
  unfold stream_live_outside_preparing dangling_audio_st at *
  unfold cmd_reset
  simp only [change_state_eq]
  cases hs : m.player.state <;> simp_all [change_state_ok]

theorem cmd_pause_stream_live (m : Machine) (h : stream_live_outside_preparing m) :
    stream_live_outside_preparing (cmd_pause m).2 := by
  unfold stream_live_outside_preparing dangling_audio_st at *
  unfold cmd_pause
  simp only [change_state_eq]
  cases hs : m.player.state <;> simp_all [change_state_ok]

theorem cmd_stop_stream_live (m : Machine) (h : stream_live_outside_preparing m) :
    stream_live_outside_preparing (cmd_stop m).2 := by
  unfold stream_live_outside_preparing dangling_audio_st at *
  unfold cmd_stop
  simp only [change_state_eq]
  cases hs : m.player.state <;> simp_all [change_state_ok]

theorem cmd_seek_stream_live (r : Int) (m : Machine) (h : stream_live_outside_preparing m) :
    stream_live_outside_preparing (cmd_seek r m).2 := by
  obtain ⟨hp, -, -, -, -⟩ := cmd_seek_eq r m
  unfold stream_live_outside_preparing at *
  rw [hp]
  exact h

theorem cmd_start_stream_live (env : PrepareEnv) (m : Machine)
    (h : stream_live_outside_preparing m) :
    stream_live_outside_preparing (cmd_start env m).2 := by
  by_cases hst : m.player.state = STATE_STOPPED
  · have hs : cmd_start env m = cmd_prepare env (cmd_reset m).2 := by
      unfold cmd_start; simp [hst]
    rw [hs]
    exact cmd_prepare_stream_live _ _ (cmd_reset_stream_live _ h)
  · unfold stream_live_outside_preparing dangling_audio_st at *
    unfold cmd_start
    simp only [change_state_eq]
    cases hs : m.player.state <;> simp_all [change_state_ok, SUCCESS]

theorem dispatch_stream_live (env : IterEnv) (m : Machine) (cmd : audio_cmd_t)
    (h : stream_live_outside_preparing m) :
    stream_live_outside_preparing (dispatch env m cmd).2 := by
  cases cmd <;> unfold dispatch <;> dsimp only
  · exact cmd_set_datasource_stream_live _ h
  · exact cmd_prepare_stream_live _ _ (by exact h)
  · exact cmd_start_stream_live _ _ h
  · exact cmd_pause_stream_live _ h
  · exact cmd_stop_stream_live _ h
  · exact cmd_seek_stream_live _ _ h
  · exact cmd_reset_stream_live _ h
  · exact h

theorem audio_decode_frame_body_audio_st (env : DecodeEnv) (m : Machine) :
    ∀ r, audio_decode_frame_body env m = r → r.2.player.audio_st = m.player.audio_st := by
  intro r hr
  have hres : ∀ (m1 : Machine) (a c : Bool),
      (audio_decode_frame_resampler env m1 a c).2.player.audio_st = m1.player.audio_st := by
    intro m1 a c
    unfold audio_decode_frame_resampler
    dsimp only
    split_ifs <;> rfl
  have hplay : ∀ (m1 : Machine) (d : Int),
      (audio_decode_frame_play m1 d).2.player.audio_st = m1.player.audio_st := by
    intro m1 d
    unfold audio_decode_frame_play
    dsimp only
    split_ifs <;> rfl
  unfold audio_decode_frame_body at hr
  dsimp only at hr
  split_ifs at hr
  all_goals subst hr
  all_goals
    first
    | rfl
    | exact hres _ _ _
    | exact (hplay _ _).trans (hres _ _ _)

theorem audio_decode_frame_audio_st (fuel : Nat) (envs : Nat → DecodeEnv) (m : Machine)
    (r : Int × Machine) (h : audio_decode_frame fuel envs m = some r) :
    r.2.player.audio_st = m.player.audio_st := by
  by_cases hsz : m.statics.pkt.size > 0
  · cases fuel with
    | zero => simp [audio_decode_frame] at h
    | succ n =>
      rw [audio_decode_frame_step n envs m hsz] at h
      have hb := audio_decode_frame_body_audio_st (envs 0) m _ rfl
      cases hone : (audio_decode_frame_body (envs 0) m).1 with
      | some ret =>
        rw [hone] at h
        dsimp only at h
        cases h
        exact hb
      | none =>
        rw [hone] at h
        dsimp only at h
        split_ifs at h
        cases h
        exact hb
  · by_cases hp : m.player.state = STATE_PAUSED
    · cases fuel with
      | zero => simp [audio_decode_frame] at h
      | succ n =>
        unfold audio_decode_frame at h
        simp only [hsz, if_false, hp, if_true] at h
        cases h
        rfl
    · rw [audio_decode_frame_spin fuel envs m (by omega) hp] at h
      cases h

theorem read_and_decode_stream_live (env : IterEnv) (m m' : Machine)
    (h : stream_live_outside_preparing m) (hr : read_and_decode env m = some m') :
    stream_live_outside_preparing m' := by
  unfold read_and_decode at hr
  dsimp only at hr
  simp only [change_state_eq] at hr
  split_ifs at hr
  all_goals
    first
    | (cases hr; exact h)
    | (cases hr; unfold stream_live_outside_preparing dangling_audio_st at *
       simp_all [(ap_seek_state _ _ _).1, (ap_seek_state _ _ _).2.2.2.2.1, change_state_ok])
    | (simp only [Option.map_eq_some'] at hr
       obtain ⟨a, ha, rfl⟩ := hr
       obtain ⟨b, hb, rfl⟩ := ha
       obtain ⟨h1, -, -, -, -, -⟩ := audio_decode_frame_frame _ _ _ _ hb
       have h2 := audio_decode_frame_audio_st _ _ _ _ hb
       unfold stream_live_outside_preparing dangling_audio_st at *
       dsimp only at h1 h2 ⊢
       rw [h1, h2]
       exact h)

theorem player_thread_iteration_stream_live (env : IterEnv) (m m' : Machine) (quit : Bool)
    (h : stream_live_outside_preparing m)
    (hr : player_thread_iteration env m = some (quit, m')) :
    stream_live_outside_preparing m' := by
  have key : ∀ (q : Bool) (m1 : Machine), stream_live_outside_preparing m1 →
      Option.map (fun x => (q, x)) (read_and_decode env m1) = some (quit, m') →
      stream_live_outside_preparing m' := by
    intro q m1 h1 hq
    simp only [Option.map_eq_some'] at hq
    obtain ⟨a, ha, hq⟩ := hq
    cases hq
    exact read_and_decode_stream_live _ _ _ h1 ha
  unfold player_thread_iteration at hr
  split_ifs at hr
  · cases hr; exact h
  · split at hr
    · exact key _ _ h hr
    · exact key _ _ (dispatch_stream_live _ _ _ (by exact h)) hr
  · split at hr
    · cases hr
    · exact key _ _ (dispatch_stream_live _ _ _ (by exact h)) hr

/-- In every reachable machine the pointer `player->audio_st` is null or points to a live
stream, except possibly in `STATE_PREPARING` and `STATE_END`: the reads of the stream made
while decoding, all in `STATE_STARTED`, find it live. -/
theorem reachable_stream_live {m : Machine} (h : Reachable m) :
    stream_live_outside_preparing m := by
  induction h with
  | create cb =>
    unfold player_thread_start stream_live_outside_preparing
    dsimp only
    split_ifs <;> exact fun hd => by cases hd
  | send_cmd ok cmd _ ih =>
    unfold ap_send_cmd; split_ifs <;> exact ih
  | set_datasource ok url _ ih =>
    unfold ap_set_datasource ap_send_cmd; dsimp only; split_ifs <;> exact ih
  | seek incr relative _ ih =>
    unfold stream_live_outside_preparing dangling_audio_st at *
    dsimp only
    rw [(ap_seek_state _ _ _).1, (ap_seek_state _ _ _).2.2.2.2.1]
    exact ih
  | set_looping looping _ ih => exact ih
  | iteration env _ hi ih => exact player_thread_iteration_stream_live _ _ _ _ ih hi
  | exit _ ih =>
    unfold stream_live_outside_preparing at *
    unfold player_thread_exit
    simp only [change_state_eq]
    simp_all [change_state_ok]

/-- For every reachable machine whose state is not `END`, in which no freed stream has been
read so far and `player->audio_st` is null or points to a live stream, processing `RESET`
reads no freed stream, returns `SUCCESS` and leaves the player in `STATE_IDLE` with no
selected audio stream (−1), no resampler and the abort flag cleared, and the
`SET_DATASOURCE` handler that follows is accepted, moving the state to `INITIALIZED`. -/
theorem cmd_reset_with_live_stream (m : Machine) (h : Reachable m)
    (he : m.player.state ≠ STATE_END) (hf : m.fault = false)
    (hd : dangling_audio_st m.player = false) :
    (cmd_reset m).2.fault = false
    ∧ (cmd_reset m).1 = SUCCESS
    ∧ (cmd_reset m).2.player.state = STATE_IDLE
    ∧ (cmd_reset m).2.player.audio_stream = -1
    ∧ (cmd_reset m).2.statics.avr = false
    ∧ (cmd_reset m).2.player.abort_call = 0
    ∧ (cmd_set_datasource (cmd_reset m).2).1 = SUCCESS
    ∧ (cmd_set_datasource (cmd_reset m).2).2.player.state = STATE_INITIALIZED := by
  have hinv := reachable_idle_is_clean h
  have key : (cmd_reset m).2.fault = false
      ∧ (cmd_reset m).1 = SUCCESS
      ∧ (cmd_reset m).2.player.state = STATE_IDLE
      ∧ (cmd_reset m).2.player.audio_stream = -1
      ∧ (cmd_reset m).2.statics.avr = false
      ∧ (cmd_reset m).2.player.abort_call = 0 := by
    unfold idle_is_clean at hinv
    unfold cmd_reset
    simp only [change_state_eq]
    unfold dangling_audio_st at *
    cases hs : m.player.state <;> simp_all [change_state_ok]
  obtain ⟨k0, k1, k2, k3, k4, k5⟩ := key
  refine ⟨k0, k1, k2, k3, k4, k5, ?_, ?_⟩
  · unfold cmd_set_datasource
    rw [change_state_eq]
    simp [k2, change_state_ok]
  · unfold cmd_set_datasource
    rw [change_state_eq]
    simp [k2, change_state_ok]

/-- For every reachable machine whose state is neither `END` nor `PREPARING` and in which
no freed stream has been read so far, processing `RESET` reads no freed stream and gives
the result of `cmd_reset_with_live_stream`. -/
theorem cmd_reset_outside_preparing (m : Machine) (h : Reachable m)
    (he : m.player.state ≠ STATE_END) (hp : m.player.state ≠ STATE_PREPARING)
    (hf : m.fault = false) :
    (cmd_reset m).2.fault = false
    ∧ (cmd_reset m).1 = SUCCESS
    ∧ (cmd_reset m).2.player.state = STATE_IDLE
    ∧ (cmd_reset m).2.player.audio_stream = -1
    ∧ (cmd_reset m).2.statics.avr = false
    ∧ (cmd_reset m).2.player.abort_call = 0
    ∧ (cmd_set_datasource (cmd_reset m).2).1 = SUCCESS
    ∧ (cmd_set_datasource (cmd_reset m).2).2.player.state = STATE_INITIALIZED := by
  have hd : dangling_audio_st m.player = false := by
    cases hx : dangling_audio_st m.player with
    | false => rfl
    | true => rcases reachable_stream_live h hx with h1 | h1
              · exact absurd h1 hp
              · exact absurd h1 he
  exact cmd_reset_with_live_stream m h he hf hd

/-- C14: `RESET` is not safe from every reachable state. The player that has gone through
`SET_DATASOURCE`, `PREPARE`, `STOP` and a `PREPARE` whose `avformat_open_input` fails is
reachable and in `STATE_PREPARING`; up to there no freed stream has been read, and in
`STATE_STOPPED` `player->audio_st` pointed to the live stream of the open session. The
failed `PREPARE` has closed that session without clearing `player->audio_st`, which now
points to a freed stream, and `cmd_reset`, called directly or by the dispatcher on
`CMD_RESET`, reads `player->audio_st->codec` from it: a use after free. -/
theorem reset_reads_freed_stream :
    Reachable reprepare_failed
    ∧ reprepare_failed.player.state = STATE_PREPARING
    ∧ reprepare_failed.fault = false
    ∧ dangling_audio_st stopped.player = false
    ∧ stopped.player.audio_st.isSome = true
    ∧ reprepare_failed.player.ic = none
    ∧ reprepare_failed.player.audio_st.isSome = true
    ∧ dangling_audio_st reprepare_failed.player = true
    ∧ (cmd_reset reprepare_failed).2.fault = true
    ∧ (send_and_turn (sample_env (prepare_succeeds 10000000)) reprepare_failed
        CMD_RESET).fault = true :=
  ⟨reprepare_failed_reachable, by decide, by decide, by decide, by decide, by decide,
   by decide, by decide, by decide, by decide⟩

/-! ## Termination of the decode loop (C21) -/

theorem decoder_calls_append (a b : List Call) :
    decoder_calls (a ++ b) = decoder_calls a ++ decoder_calls b := by
  unfold decoder_calls; simp

theorem audio_decode_frame_body_decoder_calls (env : DecodeEnv) (m : Machine) :
    ∀ r, audio_decode_frame_body env m = r →
      (decoder_calls r.2.trace = decoder_calls m.trace
      ∨ decoder_calls r.2.trace = decoder_calls m.trace ++ [Call.avcodec_decode_audio4]) := by
  intro r hr
  have hres : ∀ (m1 : Machine) (a c : Bool), m1.trace = m.trace ++ [Call.avcodec_decode_audio4] →
      decoder_calls (audio_decode_frame_resampler env m1 a c).2.trace
        = decoder_calls m.trace ++ [Call.avcodec_decode_audio4] := by
    intro m1 a c h1
    rw [(audio_decode_frame_resampler_frame env m1 a c).1, h1, decoder_calls_append]
    simp [decoder_calls]
  have hplay : ∀ (m1 : Machine) (d : Int),
      decoder_calls m1.trace = decoder_calls m.trace ++ [Call.avcodec_decode_audio4] →
      decoder_calls (audio_decode_frame_play m1 d).2.trace
        = decoder_calls m.trace ++ [Call.avcodec_decode_audio4] := by
    intro m1 d h1
    rw [(audio_decode_frame_play_eq m1 d).2.1, decoder_calls_append, h1]
    split_ifs <;> simp [decoder_calls]
  unfold audio_decode_frame_body at hr
  dsimp only at hr
  split_ifs at hr
  all_goals subst hr
  all_goals
    first
    | (left; rfl)
    | (right; simp [decoder_calls_append, decoder_calls]; done)
    | (right; exact hres _ _ _ (by rfl))
    | (right; exact hplay _ _ (hres _ _ _ (by rfl)))

/-- C21 (the code at the failing input): with a current packet of size 0 (or less) and
the state other than `PAUSED`, `audio_decode_frame` never returns: whatever the fuel, the
model yields no result. In general the call returns exactly when the state is `PAUSED`,
or the packet is non-empty and the first pass through the loop body ends in a `return`;
and a call that returns has called the decoder at most once. -/
theorem empty_packet_never_returns (fuel : Nat) (envs : Nat → DecodeEnv) (m : Machine) :
    (m.statics.pkt.size ≤ 0 → m.player.state ≠ STATE_PAUSED →
      audio_decode_frame fuel envs m = none)
    ∧ ((∃ r, audio_decode_frame (fuel + 1) envs m = some r) ↔
        (m.player.state = STATE_PAUSED
          ∨ (m.statics.pkt.size > 0 ∧ (audio_decode_frame_body (envs 0) m).1 ≠ none)))
    ∧ (∀ r, audio_decode_frame fuel envs m = some r →
        decoder_calls r.2.trace = decoder_calls m.trace
        ∨ decoder_calls r.2.trace = decoder_calls m.trace ++ [Call.avcodec_decode_audio4]) := by
  refine ⟨fun hsz hp => audio_decode_frame_spin fuel envs m hsz hp, ?_, ?_⟩
  · by_cases hsz : m.statics.pkt.size > 0
    · rw [audio_decode_frame_step fuel envs m hsz]
      cases hone : (audio_decode_frame_body (envs 0) m).1 with
      | some ret => simp [hsz]
      | none =>
        by_cases hp : m.player.state = STATE_PAUSED <;> simp [hp]
    · by_cases hp : m.player.state = STATE_PAUSED
      · unfold audio_decode_frame
        simp [hsz, hp]
      · rw [audio_decode_frame_spin (fuel + 1) envs m (by omega) hp]
        simp [hp, hsz]
  · intro r h
    by_cases hsz : m.statics.pkt.size > 0
    · cases fuel with
      | zero => simp [audio_decode_frame] at h
      | succ n =>
        rw [audio_decode_frame_step n envs m hsz] at h
        have hb := audio_decode_frame_body_decoder_calls (envs 0) m _ rfl
        cases hone : (audio_decode_frame_body (envs 0) m).1 with
        | some ret =>
          rw [hone] at h
          dsimp only at h
          cases h
          exact hb
        | none =>
          rw [hone] at h
          dsimp only at h
          split_ifs at h
          cases h
          exact hb
    · have := audio_decode_frame_empty_packet fuel envs m r (by omega) h
      exact Or.inl (by rw [this.2])

theorem empty_packet_never_returns_witness :
    started_with_empty_packet.statics.pkt.size ≤ 0
    ∧ started_with_empty_packet.player.state ≠ STATE_PAUSED
    ∧ audio_decode_frame 1000 (fun _ => sample_decode) started_with_empty_packet = none :=
  ⟨by decide, by decide,
   (empty_packet_never_returns 1000 (fun _ => sample_decode) started_with_empty_packet).1
     (by decide) (by decide)⟩

theorem dispatcher_hangs_on_empty_packet (fuel : Nat) :
    player_thread_iteration (env_empty_packet fuel) started = none := by
  have hp : started.pipe = [] := by decide
  have ht : started.statics.epoll_timeout = 0 := by decide
  have he : started.statics.eof = 0 := by decide
  have ha : started.player.audio_stream = 0 := by decide
  have hd : read_and_decode (env_empty_packet fuel) started = none := by
    unfold read_and_decode
    simp only [started_state, ne_eq, not_true_eq_false, if_false]
    have hspin := audio_decode_frame_spin fuel (env_empty_packet fuel).decode
      { started with statics := { started.statics with pkt := (env_empty_packet fuel).pkt } }
      (le_refl (0 : Int)) (by show started.player.state ≠ STATE_PAUSED; decide)
    simp [env_empty_packet, sample_env, he, ha] at hspin ⊢
    exact hspin
  unfold player_thread_iteration
  simp [env_empty_packet, sample_env, hp, ht] at hd ⊢
  exact hd

/-! ## The end-of-stream flag (C22) -/

/-- C22 (as stated, refuted): end of stream is recorded with looping off (state
`COMPLETED`, flag set); looping is then enabled and `START` is processed, and the turn
that handles it reads the end of the stream again, which clears the flag and keeps the
state `STARTED`; the following turn, whose packet read succeeds, calls the decoder and the
sink and stays in `STARTED`, although no `PREPARE` command has been processed. -/
theorem eof_flag_cleared_by_looping :
    Reachable replayed
    ∧ completed.player.state = STATE_COMPLETED
    ∧ completed.statics.eof = 1
    ∧ completed.player.looping = 0
    ∧ restarted.trace = completed.trace ++ [Call.on_event EVENT_STATE_CHANGE 6 4]
    ∧ restarted.player.state = STATE_STARTED
    ∧ restarted.statics.eof = 0
    ∧ replayed.trace = restarted.trace ++ [Call.avcodec_decode_audio4, Call.on_play 16]
    ∧ replayed.player.state = STATE_STARTED
    ∧ replayed.player.state ≠ STATE_COMPLETED := by
  refine ⟨?_, by decide, by decide, by decide, by decide, by decide, by decide, by decide,
    by decide, by decide⟩
  exact turn_reachable _ (send_and_turn_reachable _ _
    (Reachable.set_looping 1 (turn_reachable _ started_reachable)))

theorem dispatch_eof (env : IterEnv) (m : Machine) (cmd : audio_cmd_t)
    (hc : cmd ≠ CMD_PREPARE) : (dispatch env m cmd).2.statics.eof = m.statics.eof := by
  have hprep : ∀ (e : PrepareEnv) (m1 : Machine),
      (cmd_prepare e m1).2.statics.eof = m1.statics.eof := by
    intro e m1
    cases hok : change_state_ok m1.player.state STATE_PREPARING with
    | false => rw [cmd_prepare_rejected e m1 hok]
    | true => exact (cmd_prepare_accepted e m1 hok).2.2.2.2.1
  have hreset : ∀ m1 : Machine, (cmd_reset m1).2.statics.eof = m1.statics.eof := by
    intro m1
    unfold cmd_reset
    simp only [change_state_eq]
    split_ifs <;> rfl
  cases cmd
  · unfold dispatch cmd_set_datasource
    simp only [change_state_eq]
    split_ifs <;> rfl
  · exact absurd rfl hc
  · unfold dispatch
    dsimp only
    unfold cmd_start
    simp only [change_state_eq]
    split_ifs <;> first | rfl | (rw [hprep, hreset])
  · unfold dispatch cmd_pause
    simp only [change_state_eq]
    split_ifs <;> rfl
  · unfold dispatch cmd_stop
    simp only [change_state_eq]
    split_ifs <;> rfl
  · unfold dispatch
    dsimp only
    rw [(cmd_seek_eq _ _).2.1]
  · unfold dispatch
    dsimp only
    exact hreset m
  · rfl

theorem dispatch_prepare_eof (env : IterEnv) (m : Machine) :
    (dispatch env m CMD_PREPARE).2.statics.eof = 0 := by
  unfold dispatch
  dsimp only
  cases hok : change_state_ok m.player.state STATE_PREPARING with
  | false => rw [cmd_prepare_rejected _ _ (by exact hok)]
  | true => rw [(cmd_prepare_accepted _ _ (by exact hok)).2.2.2.2.1]

theorem read_and_decode_eof (env : IterEnv) (m m' : Machine)
    (hr : read_and_decode env m = some m') (he : m.statics.eof ≠ 0)
    (hl : ¬ (env.read_frame < 0 ∧ (env.read_frame = AVERROR_EOF ∨ env.pb_eof = true)
      ∧ m.player.looping ≠ 0)) :
    m'.statics.eof ≠ 0 := by
  unfold read_and_decode at hr
  dsimp only at hr
  simp only [change_state_eq] at hr
  split_ifs at hr
  all_goals
    first
    | (cases hr; exact he)
    | (cases hr; simp_all)
    | (exfalso; simp_all)

/-- C22 (amended): the end-of-stream flag is sticky until a `PREPARE` command is
processed or an end of stream is read with looping enabled, the two places that clear it.
A `START` command in `COMPLETED` succeeds, returns the player to `STARTED` and keeps the
flag; with the flag set, a dispatcher turn in `STARTED` whose packet read succeeds, or
reports the end of the stream with looping off, goes straight to `COMPLETED` with timeout
−1, adding only the state-change notification to the trace (no decoder call, no sink
call) and keeping the flag; every command other than `PREPARE` keeps the flag, and so does
the packet read unless it reports the end of the stream with looping on. -/
theorem eof_flag_sticky (env : IterEnv) (m : Machine) :
    (m.player.state = STATE_COMPLETED →
      (cmd_start env.prepare m).1 = SUCCESS
      ∧ (cmd_start env.prepare m).2.player.state = STATE_STARTED
      ∧ (cmd_start env.prepare m).2.statics.eof = m.statics.eof)
    ∧ (m.player.state = STATE_STARTED → m.statics.eof ≠ 0 →
        (0 ≤ env.read_frame
          ∨ (env.read_frame < 0 ∧ (env.read_frame = AVERROR_EOF ∨ env.pb_eof = true)
              ∧ m.player.looping = 0)) →
        ∃ m', read_and_decode env m = some m'
          ∧ m'.player.state = STATE_COMPLETED
          ∧ m'.statics.epoll_timeout = -1
          ∧ m'.statics.eof ≠ 0
          ∧ m'.trace = m.trace
              ++ state_change_calls m.player.callbacks.on_event STATE_STARTED STATE_COMPLETED)
    ∧ (∀ cmd, cmd ≠ CMD_PREPARE → (dispatch env m cmd).2.statics.eof = m.statics.eof)
    ∧ (∀ m', read_and_decode env m = some m' → m.statics.eof ≠ 0 →
        ¬ (env.read_frame < 0 ∧ (env.read_frame = AVERROR_EOF ∨ env.pb_eof = true)
            ∧ m.player.looping ≠ 0) →
        m'.statics.eof ≠ 0)
    ∧ (dispatch env m CMD_PREPARE).2.statics.eof = 0
    ∧ (m.player.state = STATE_STARTED → env.read_frame < 0 →
        (env.read_frame = AVERROR_EOF ∨ env.pb_eof = true) → m.player.looping ≠ 0 →
        ∃ m', read_and_decode env m = some m' ∧ m'.statics.eof = 0
          ∧ m'.player.state = STATE_STARTED) := by
  refine ⟨?_, ?_, fun cmd hc => dispatch_eof env m cmd hc,
    fun m' hr he hl => read_and_decode_eof env m m' hr he hl, dispatch_prepare_eof env m, ?_⟩
  · intro hs
    unfold cmd_start
    simp only [change_state_eq]
    simp [hs, change_state_ok, SUCCESS]
  · intro hs he hread
    have key : ∀ r, read_and_decode env m = r →
        ∃ m', r = some m'
          ∧ m'.player.state = STATE_COMPLETED
          ∧ m'.statics.epoll_timeout = -1
          ∧ m'.statics.eof ≠ 0
          ∧ m'.trace = m.trace
              ++ state_change_calls m.player.callbacks.on_event STATE_STARTED
                STATE_COMPLETED := by
      intro r hr
      unfold read_and_decode at hr
      dsimp only at hr
      simp only [change_state_eq] at hr
      split_ifs at hr
      all_goals subst hr
      all_goals
        first
        | (exfalso
           rcases hread with h | ⟨h1, h2, h3⟩ <;>
             first
             | omega
             | (simp_all; done)
             | (simp_all; omega))
        | (refine ⟨_, rfl, ?_, ?_, ?_, ?_⟩ <;> simp_all [change_state_ok])
    exact key _ rfl
  · intro hs hr he hl
    refine ⟨{ m with
      statics := { m.statics with pkt := env.pkt, eof := 0 }
      player := ap_seek m.player 0 0 }, ?_, rfl, ?_⟩
    · unfold read_and_decode
      simp [hs, hr, he, hl]
    · dsimp only
      rw [(ap_seek_state _ _ _).1, hs]

theorem eof_flag_sticky_witness :
    (completed.player.state = STATE_COMPLETED
      ∧ (cmd_start env_eof.prepare completed).1 = SUCCESS
      ∧ (cmd_start env_eof.prepare completed).2.player.state = STATE_STARTED
      ∧ (cmd_start env_eof.prepare completed).2.statics.eof = completed.statics.eof)
    ∧ ((cmd_start env_eof.prepare completed).2.player.state = STATE_STARTED
      ∧ (cmd_start env_eof.prepare completed).2.statics.eof ≠ 0
      ∧ (0 : Int) ≤ (sample_env (prepare_succeeds 10000000)).read_frame
      ∧ ∃ m', read_and_decode (sample_env (prepare_succeeds 10000000))
            (cmd_start env_eof.prepare completed).2 = some m'
          ∧ m'.player.state = STATE_COMPLETED
          ∧ m'.statics.epoll_timeout = -1
          ∧ m'.statics.eof ≠ 0
          ∧ m'.trace = (cmd_start env_eof.prepare completed).2.trace
              ++ state_change_calls
                  (cmd_start env_eof.prepare completed).2.player.callbacks.on_event
                  STATE_STARTED STATE_COMPLETED)
    ∧ (CMD_START ≠ CMD_PREPARE
      ∧ (dispatch env_eof completed CMD_START).2.statics.eof = completed.statics.eof)
    ∧ ((cmd_start env_eof.prepare completed_looping).2.player.state = STATE_STARTED
      ∧ env_eof.read_frame < 0
      ∧ (cmd_start env_eof.prepare completed_looping).2.player.looping ≠ 0
      ∧ ∃ m', read_and_decode env_eof (cmd_start env_eof.prepare completed_looping).2 = some m'
          ∧ m'.statics.eof = 0 ∧ m'.player.state = STATE_STARTED) :=
  have hc : completed.player.state = STATE_COMPLETED := by decide
  have h1 := (eof_flag_sticky env_eof completed).1 hc
  have hs : (cmd_start env_eof.prepare completed).2.player.state = STATE_STARTED := h1.2.1
  have he : (cmd_start env_eof.prepare completed).2.statics.eof ≠ 0 := by decide
  have hs2 : (cmd_start env_eof.prepare completed_looping).2.player.state = STATE_STARTED := by
    decide
  ⟨⟨hc, h1⟩,
   ⟨hs, he, by decide,
    (eof_flag_sticky (sample_env (prepare_succeeds 10000000))
      (cmd_start env_eof.prepare completed).2).2.1 hs he (Or.inl (by decide))⟩,
   ⟨by decide, (eof_flag_sticky env_eof completed).2.2.1 CMD_START (by decide)⟩,
   ⟨hs2, by decide, by decide,
    (eof_flag_sticky env_eof (cmd_start env_eof.prepare completed_looping).2).2.2.2.2.2
      hs2 (by decide) (Or.inl rfl) (by decide)⟩⟩

/-! ## Milliseconds to microseconds at the boundary (C23) -/

theorem wrap32_eq_self_iff (x : Int) : wrap32 x = x ↔ -(2 ^ 31) ≤ x ∧ x < 2 ^ 31 := by
  unfold wrap32
  constructor
  · intro h; constructor <;> omega
  · intro h; omega

/-- C23 (the code at the failing input): for the 32-bit argument `msecs = 2147484` (35
minutes 47.484 seconds) and an absolute request on the started player, `seekTo` returns 0
and hands `ap_seek` the position −2147483296, which is latched as the seek target, whereas
`msecs × 1000` is 2147484000; the product computed in 32-bit arithmetic equals
`msecs × 1000` exactly for the arguments between −2147483 and 2147483. -/
theorem seekTo_wraps_at_32_bits :
    (-(2 ^ 31) ≤ (2147484 : Int) ∧ (2147484 : Int) < 2 ^ 31)
    ∧ Java_danbroid_andrudio_LibAndrudio_seekTo (some started.player) 2147484 0
        = (0, some (ap_seek started.player (-2147483296) 0))
    ∧ (ap_seek started.player (-2147483296) 0).seek_pos = -2147483296
    ∧ (2147484 : Int) * 1000 = 2147484000
    ∧ (-2147483296 : Int) ≠ 2147484 * 1000
    ∧ ∀ msecs : Int, wrap32 (msecs * 1000) = msecs * 1000
        ↔ (-2147483 ≤ msecs ∧ msecs ≤ 2147483) := by
  have hw : wrap32 (2147484 * 1000) = -2147483296 := by decide
  refine ⟨by decide, ?_, by decide, by decide, by decide, ?_⟩
  · unfold Java_danbroid_andrudio_LibAndrudio_seekTo
    dsimp only
    rw [hw]
  · intro msecs
    rw [wrap32_eq_self_iff]
    constructor
    · intro h; constructor <;> omega
    · intro h; constructor <;> omega

end AudioPlayer
